import Mathlib

/-!
Verification of the dimensional upsert / forecast replacement core of the
pittsburgh-weather-data-pipeline repository.

The embedding mirrors the three relevant Python modules:

* `WeatherEtl.*`   — `etl/extract_weather_from_openmeteo.py` (NYC current-weather
  variant; SQL hard-codes the `weather` schema).
* `ForecastEtl.*`  — `etl/extract_forecast_from_openmeteo.py` (Pittsburgh hourly
  forecast variant; SQL is schema-parameterised).
* `Dag.*`          — the two load tasks of `dags/weather_etl_dag.py`.

Database state is explicit (`Db`), a psycopg2 connection is a pair of the last
committed state and the in-transaction working state (`Conn`); `commit` copies
work over committed, `rollback` copies committed over work.  Every SQL statement
executed by the embedded code is also recorded in a trace (`Stmt` / `Ev`), so
ordering properties (clear-before-write, single atomic upsert statement) are
provable.  Coordinates and measurements are modelled as exact integers: the code
only ever compares them for equality or stores them.
-/

/-! ## Calendar arithmetic (models Python `datetime.date` derived fields) -/

structure Date where
  year : Nat
  month : Nat
  day : Nat
deriving DecidableEq, Repr

/-- Gregorian leap-year rule, as used by `datetime.date`. -/
def isLeap (y : Nat) : Bool := (y % 4 == 0 && y % 100 != 0) || y % 400 == 0

def daysInMonth (y m : Nat) : Nat :=
  if m = 2 then (if isLeap y then 29 else 28)
  else if m = 4 ∨ m = 6 ∨ m = 9 ∨ m = 11 then 30
  else 31

def daysBeforeMonth (y m : Nat) : Nat :=
  (List.range (m - 1)).foldl (fun acc k => acc + daysInMonth y (k + 1)) 0

def daysBeforeYear (y : Nat) : Nat :=
  let n := y - 1
  n * 365 + n / 4 - n / 100 + n / 400

/-- Proleptic Gregorian ordinal, `date.toordinal()`: 0001-01-01 is day 1. -/
def toOrdinal (d : Date) : Nat :=
  daysBeforeYear d.year + daysBeforeMonth d.year d.month + d.day

/-- `date.weekday()`: Monday = 0 … Sunday = 6 (0001-01-01 was a Monday). -/
def pyWeekday (d : Date) : Nat := (toOrdinal d + 6) % 7

/-- `date.strftime('%A')`. -/
def dayName (w : Nat) : String :=
  match w with
  | 0 => "Monday"
  | 1 => "Tuesday"
  | 2 => "Wednesday"
  | 3 => "Thursday"
  | 4 => "Friday"
  | 5 => "Saturday"
  | _ => "Sunday"

def dayOfYear (d : Date) : Nat := daysBeforeMonth d.year d.month + d.day

/-- An ISO year is long (53 weeks) iff Jan 1 is a Thursday, or it is a leap
year whose Jan 1 is a Wednesday. -/
def longIsoYear (y : Nat) : Bool :=
  pyWeekday ⟨y, 1, 1⟩ == 3 || (isLeap y && pyWeekday ⟨y, 1, 1⟩ == 2)

/-- `date.isocalendar()[1]`, the ISO-8601 week number. -/
def isoWeek (d : Date) : Nat :=
  let w := (dayOfYear d + 9 - pyWeekday d) / 7
  if w = 0 then (if longIsoYear (d.year - 1) then 53 else 52)
  else if w = 53 ∧ ¬ longIsoYear d.year then 1
  else w

/-! ## ISO-8601 timestamp parsing

Models the `datetime.fromisoformat` grammar subset the pipeline meets:
`YYYY-MM-DD[(T| )HH:MM[:SS][±HH:MM]]`.  A parsed value keeps the clock fields
literally and records the explicit UTC offset if one was present
(`tzMinutes = none` is Python's naive datetime). -/

structure IsoDateTime where
  date : Date
  hour : Nat
  minute : Nat
  second : Nat
  tzMinutes : Option Int
deriving DecidableEq, Repr

def digitVal (c : Char) : Option Nat :=
  if c.isDigit then some (c.toNat - 48) else none

def parseDigits : Nat → List Char → Option (Nat × List Char)
  | 0, cs => some (0, cs)
  | _ + 1, [] => none
  | k + 1, c :: cs =>
    match digitVal c with
    | none => none
    | some d =>
      match parseDigits k cs with
      | none => none
      | some (n, rest) => some (d * 10 ^ k + n, rest)

def expectChar (c : Char) : List Char → Option (List Char)
  | [] => none
  | x :: xs => if x = c then some xs else none

def parseDateChars (cs : List Char) : Option (Date × List Char) := do
  let (y, cs) ← parseDigits 4 cs
  let cs ← expectChar '-' cs
  let (m, cs) ← parseDigits 2 cs
  let cs ← expectChar '-' cs
  let (d, cs) ← parseDigits 2 cs
  pure (⟨y, m, d⟩, cs)

def parseOffsetChars : List Char → Option (Option Int × List Char)
  | [] => some (none, [])
  | '+' :: cs => do
      let (h, cs) ← parseDigits 2 cs
      let cs ← expectChar ':' cs
      let (m, cs) ← parseDigits 2 cs
      pure (some ((h : Int) * 60 + m), cs)
  | '-' :: cs => do
      let (h, cs) ← parseDigits 2 cs
      let cs ← expectChar ':' cs
      let (m, cs) ← parseDigits 2 cs
      pure (some (-((h : Int) * 60 + m)), cs)
  | _ => none

def parseSecondsChars : List Char → Option (Nat × List Char)
  | ':' :: cs => parseDigits 2 cs
  | cs => some (0, cs)

def parseTimeChars (cs : List Char) : Option (Nat × Nat × Nat × Option Int) := do
  let (h, cs) ← parseDigits 2 cs
  let cs ← expectChar ':' cs
  let (mi, cs) ← parseDigits 2 cs
  let (s, cs) ← parseSecondsChars cs
  let (off, cs) ← parseOffsetChars cs
  if cs = [] then pure (h, mi, s, off) else none

/-- Model of `datetime.fromisoformat` on the grammar above; `none` models the
`ValueError` Python raises on a malformed string. -/
def fromisoformat (s : String) : Option IsoDateTime := do
  let cs := s.toList
  let (d, cs) ← parseDateChars cs
  match cs with
  | [] => pure { date := d, hour := 0, minute := 0, second := 0, tzMinutes := none }
  | sep :: rest =>
    if sep = 'T' ∨ sep = ' ' then do
      let (h, mi, sec, off) ← parseTimeChars rest
      pure { date := d, hour := h, minute := mi, second := sec, tzMinutes := off }
    else none

/-- `time_str.replace('Z', '+00:00')` specialised to this pattern. -/
def replaceZ (s : String) : String :=
  String.mk (s.toList.foldr
    (fun c acc => if c = 'Z' then '+' :: '0' :: '0' :: ':' :: '0' :: '0' :: acc else c :: acc)
    [])

/-- The timestamp-parsing block shared by `insert_weather_observation` and
`insert_forecast_observations`:
`fromisoformat(time_str.replace('Z', '+00:00'))` when `'T' in time_str`,
plain `fromisoformat(time_str)` otherwise. -/
def parsePayloadTime (time_str : String) : Option IsoDateTime :=
  if time_str.toList.contains 'T' then fromisoformat (replaceZ time_str)
  else fromisoformat time_str

/-- Seconds on the clock face (no offset applied). -/
def clockSeconds (t : IsoDateTime) : Int :=
  (toOrdinal t.date : Int) * 86400 + (t.hour : Int) * 3600 + (t.minute : Int) * 60 + t.second

/-- The UTC instant a parsed timestamp denotes, given the UTC offset (in
minutes) of the local timezone that bare timestamps are written in.  Used only
to state what "the same instant" means; the pipeline itself never computes
this. -/
def instantSeconds (localTzMinutes : Int) (t : IsoDateTime) : Int :=
  clockSeconds t - (t.tzMinutes.getD localTzMinutes) * 60

/-! ## Warehouse data model -/

/-- Measurement values are modelled as exact integers; the pipeline only stores
them, so only equality matters.  An element `none` is a JSON/SQL null. -/
abbrev Val := Int

structure LocRow where
  locationId : Nat
  neighborhood_name : String
  latitude : Int
  longitude : Int
  community_board : Option String
  updated_at : Nat
deriving DecidableEq, Repr

structure LocTable where
  rows : List LocRow
  nextId : Nat
deriving DecidableEq, Repr

structure DateRow where
  dateId : Nat
  date : Date
  year : Nat
  month : Nat
  day : Nat
  day_of_week : Nat
  day_name : String
  week_of_year : Nat
  quarter : Nat
  is_weekend : Bool
deriving DecidableEq, Repr

structure DateTable where
  rows : List DateRow
  nextId : Nat
deriving DecidableEq, Repr

/-- One row of `fact_current_weather`; `values` lists the 15 measurement
columns in the column order of the INSERT statement. -/
structure CurrentRow where
  locationId : Nat
  dateId : Nat
  obsTime : IsoDateTime
  values : List (Option Val)
deriving DecidableEq, Repr

/-- One row of `fact_hourly_forecast`; `values` lists the 33 measurement
columns in the column order of the INSERT statement. -/
structure ForecastRow where
  locationId : Nat
  dateId : Nat
  forecastTime : IsoDateTime
  values : List (Option Val)
deriving DecidableEq, Repr

structure Db where
  locs : LocTable
  dates : DateTable
  facts : List CurrentRow
  forecasts : List ForecastRow
deriving DecidableEq, Repr

/-- A psycopg2 connection: last committed state plus in-transaction working
state.  `commit` publishes `work`; `rollback` resets `work` to `committed`. -/
structure Conn where
  committed : Db
  work : Db
deriving DecidableEq, Repr

def emptyLocTable : LocTable := ⟨[], 0⟩
def emptyDateTable : DateTable := ⟨[], 0⟩
def emptyDb : Db := ⟨emptyLocTable, emptyDateTable, [], []⟩

/-! ## SQL statement / event traces -/

/-- The SQL statements the two modules execute.  `upsertLocation` is the single
atomic `INSERT … ON CONFLICT (latitude, longitude) DO UPDATE` statement;
`selectDateId` / `insertDate` are the two separate statements of the
lookup-then-insert date resolution.  Each constructor records the schema name
interpolated into the statement text. -/
inductive Stmt where
  | upsertLocation (schema : String) (neighborhood_name : String)
      (latitude longitude : Int) (community_board : Option String)
  | selectDateId (schema : String) (date : Date)
  | insertDate (schema : String) (date : Date)
  | upsertCurrentWeather (schema : String) (row : CurrentRow)
  | upsertForecast (schema : String) (row : ForecastRow)
  | countForecast (schema : String)
  | truncateForecast (schema : String)
deriving DecidableEq, Repr

inductive Ev where
  | stmt (s : Stmt)
  | commit
  | rollback
deriving DecidableEq, Repr

/-- The exceptions the embedded code can raise. -/
inductive EtlError where
  | valueError (msg : String)
  | parseFailure
  | uniqueViolation
  | typeError
  | keyError (msg : String)
deriving DecidableEq, Repr

/-! ## API payloads

JSON payloads are modelled structurally: an `Option` field is a possibly
missing key (`dict.get` returning `None`), and `hourly : Option HourlyBlock`
is `none` exactly when `forecast_data.get('hourly', {})` is falsy. -/

structure CurrentBlock where
  time : Option String
  fields : List (String × Option Val)
deriving DecidableEq, Repr

structure WeatherData where
  current : Option CurrentBlock
deriving DecidableEq, Repr

structure HourlyBlock where
  time : List String
  fields : List (String × List (Option Val))
deriving DecidableEq, Repr

structure ForecastData where
  hourly : Option HourlyBlock
deriving DecidableEq, Repr

/-- Outcome of one `requests.get` call, classifying the failure taxonomy of the
fetch clients. `networkError` is a timeout/connection-level
`RequestException`; `httpStatusError` is what `raise_for_status` raises for a
non-success status; `jsonDecodeError` is a malformed response body. -/
inductive FetchOutcome (α : Type) where
  | networkError
  | httpStatusError (code : Nat)
  | jsonDecodeError
  | success (payload : α)
deriving DecidableEq, Repr

/-- Column order of the `fact_current_weather` measurement parameters. -/
def currentFieldOrder : List String :=
  ["temperature_2m", "apparent_temperature", "relative_humidity_2m",
   "wind_speed_10m", "wind_direction_10m", "wind_gusts_10m",
   "precipitation", "rain", "showers", "snowfall",
   "weather_code", "cloud_cover", "is_day", "pressure_msl", "surface_pressure"]

/-- Column order of the `fact_hourly_forecast` measurement parameters. -/
def forecastFieldOrder : List String :=
  ["temperature_2m", "relative_humidity_2m", "dew_point_2m",
   "apparent_temperature", "precipitation_probability",
   "precipitation", "rain", "showers", "snowfall", "snow_depth",
   "weather_code", "pressure_msl", "surface_pressure",
   "cloud_cover", "cloud_cover_low", "cloud_cover_mid", "cloud_cover_high",
   "visibility", "evapotranspiration", "et0_fao_evapotranspiration",
   "vapour_pressure_deficit",
   "wind_speed_10m", "wind_speed_80m", "wind_speed_120m", "wind_speed_180m",
   "wind_direction_10m", "wind_direction_80m", "wind_direction_120m",
   "wind_direction_180m", "wind_gusts_10m",
   "temperature_80m", "temperature_120m", "temperature_180m"]

/-! ## Coordinate catalog JSON

One structural model covers both catalog shapes: an `Option` field is a
possibly missing top-level key. The NYC variant reads `community_boards`
(grouped shape), the Pittsburgh variant reads `neighborhoods` (flat shape). -/

structure NeighborhoodEntry where
  name : String
  latitude : Int
  longitude : Int
deriving DecidableEq, Repr

structure CommunityBoard where
  borough : Option String
  board : Option String
  neighborhoods : Option (List NeighborhoodEntry)
deriving DecidableEq, Repr

structure CatalogJson where
  community_boards : Option (List CommunityBoard)
  neighborhoods : Option (List NeighborhoodEntry)
deriving DecidableEq, Repr

/-- `current.get(key)`: `none` when the key is missing or its value is null. -/
def currentGet (wd : WeatherData) (key : String) : Option Val :=
  (wd.current.bind (fun c => List.lookup key c.fields)).join

/-! ## Shared table primitives -/

/-- `SELECT date_id FROM {schema}.dim_date WHERE date = %s`. -/
def dimDateLookup (dates : DateTable) (d : Date) : Option Nat :=
  (dates.rows.find? (fun r => decide (r.date = d))).map (fun r => r.dateId)

/-- The row the dim_date INSERT builds from a calendar date. -/
def mkDateRow (id : Nat) (d : Date) : DateRow :=
  { dateId := id
    date := d
    year := d.year
    month := d.month
    day := d.day
    day_of_week := pyWeekday d
    day_name := dayName (pyWeekday d)
    week_of_year := isoWeek d
    quarter := (d.month - 1) / 3 + 1
    is_weekend := decide (pyWeekday d ≥ 5) }

/-- `INSERT INTO {schema}.dim_date … RETURNING date_id`, enforcing the unique
constraint on `date`. -/
def sqlInsertDate (dates : DateTable) (d : Date) : Except EtlError (DateTable × Nat) :=
  if dates.rows.any (fun r => decide (r.date = d)) then
    Except.error EtlError.uniqueViolation
  else
    Except.ok ({ rows := dates.rows ++ [mkDateRow dates.nextId d], nextId := dates.nextId + 1 },
               dates.nextId)

/-- `INSERT … ON CONFLICT (location_id, observation_time) DO UPDATE SET …`
with every measurement column (and date_id) set from EXCLUDED: the conflicting
row is replaced wholesale. -/
def upsertCurrentRow (rows : List CurrentRow) (r : CurrentRow) : List CurrentRow :=
  if rows.any (fun q => decide (q.locationId = r.locationId ∧ q.obsTime = r.obsTime)) then
    rows.map (fun q =>
      if q.locationId = r.locationId ∧ q.obsTime = r.obsTime then r else q)
  else rows ++ [r]

/-- `INSERT … ON CONFLICT (location_id, forecast_time) DO UPDATE SET …`
with every column set from EXCLUDED. -/
def upsertForecastRow (rows : List ForecastRow) (r : ForecastRow) : List ForecastRow :=
  if rows.any (fun q => decide (q.locationId = r.locationId ∧ q.forecastTime = r.forecastTime)) then
    rows.map (fun q =>
      if q.locationId = r.locationId ∧ q.forecastTime = r.forecastTime then r else q)
  else rows ++ [r]

def applyRows (inserts : List ForecastRow) (rows : List ForecastRow) : List ForecastRow :=
  inserts.foldl upsertForecastRow rows

/-! ## `etl/extract_weather_from_openmeteo.py` (NYC current-weather variant)

Every statement of this module interpolates the hard-coded schema prefix
`weather.`; none of its functions takes a schema parameter. -/

/-- `get_weather_data`: the try/except returns the parsed JSON payload on
success and `None` for every classified failure (`RequestException` — which
covers timeouts, connection errors and `raise_for_status` — and
`JSONDecodeError`), so the caller never sees an exception. -/
def WeatherEtl.get_weather_data (outcome : FetchOutcome WeatherData) : Option WeatherData :=
  match outcome with
  | FetchOutcome.networkError => none
  | FetchOutcome.httpStatusError _ => none
  | FetchOutcome.jsonDecodeError => none
  | FetchOutcome.success payload => some payload

/-- `get_or_create_date(cursor, observation_time)` with an explicit
interleaving point: `between` is what other database sessions commit between
the failed SELECT and the INSERT.  The source function is the special case
`between = fun x => x` (see `WeatherEtl.get_or_create_date`); it has no
exception handling, so a unique violation raised by the INSERT propagates. -/
def WeatherEtl.get_or_create_date_steps (dates : DateTable)
    (between : DateTable → DateTable) (observation_time : IsoDateTime) :
    Except EtlError (DateTable × Nat × List Stmt) :=
  let date_only := observation_time.date
  match dimDateLookup dates date_only with
  | some id => Except.ok (dates, id, [Stmt.selectDateId "weather" date_only])
  | none =>
    let dates1 := between dates
    match sqlInsertDate dates1 date_only with
    | Except.error e => Except.error e
    | Except.ok (dates2, id) =>
        Except.ok (dates2, id,
          [Stmt.selectDateId "weather" date_only, Stmt.insertDate "weather" date_only])

/-- `get_or_create_date` as executed single-threaded. -/
def WeatherEtl.get_or_create_date (dates : DateTable) (observation_time : IsoDateTime) :
    Except EtlError (DateTable × Nat × List Stmt) :=
  WeatherEtl.get_or_create_date_steps dates (fun x => x) observation_time

/-- `insert_or_update_location(cursor, neighborhood_name, latitude, longitude,
community_board=None)`: one atomic
`INSERT INTO weather.dim_location … ON CONFLICT (latitude, longitude) DO
UPDATE SET neighborhood_name, community_board, updated_at … RETURNING
location_id`.  Returns the new table, the returned id, and the single
statement executed. -/
def WeatherEtl.insert_or_update_location (now : Nat) (locs : LocTable)
    (neighborhood_name : String) (latitude longitude : Int)
    (community_board : Option String) : LocTable × Nat × List Stmt :=
  let res : LocTable × Nat :=
    match locs.rows.find? (fun r => decide (r.latitude = latitude ∧ r.longitude = longitude)) with
    | some r =>
        ({ locs with rows := locs.rows.map (fun q =>
            if q.latitude = latitude ∧ q.longitude = longitude then
              { q with neighborhood_name := neighborhood_name,
                       community_board := community_board,
                       updated_at := now }
            else q) },
         r.locationId)
    | none =>
        ({ rows := locs.rows ++
             [{ locationId := locs.nextId, neighborhood_name := neighborhood_name,
                latitude := latitude, longitude := longitude,
                community_board := community_board, updated_at := now }],
           nextId := locs.nextId + 1 },
         locs.nextId)
  (res.1, res.2, [Stmt.upsertLocation "weather" neighborhood_name latitude longitude community_board])

/-- `insert_weather_observation(cursor, location_id, weather_data)` — note the
three-parameter signature and the hard-coded `weather.` schema.  Raises
`ValueError` when the payload has no (or an empty) time field, re-raises the
parse failure of a malformed timestamp, resolves the date dimension, then
executes the conflict-safe fact upsert. -/
def WeatherEtl.insert_weather_observation (dates : DateTable) (facts : List CurrentRow)
    (location_id : Nat) (weather_data : WeatherData) :
    Except EtlError (DateTable × List CurrentRow × List Stmt) :=
  let time_str? := weather_data.current.bind (fun c => c.time)
  match time_str? with
  | none => Except.error (EtlError.valueError "No time field in weather data")
  | some time_str =>
    if time_str = "" then Except.error (EtlError.valueError "No time field in weather data")
    else
      match parsePayloadTime time_str with
      | none => Except.error EtlError.parseFailure
      | some observation_time =>
        match WeatherEtl.get_or_create_date dates observation_time with
        | Except.error e => Except.error e
        | Except.ok (dates', date_id, tr) =>
          let row : CurrentRow :=
            { locationId := location_id, dateId := date_id, obsTime := observation_time,
              values := currentFieldOrder.map (fun k => currentGet weather_data k) }
          Except.ok (dates', upsertCurrentRow facts row,
                     tr ++ [Stmt.upsertCurrentWeather "weather" row])

/-! ## `etl/extract_forecast_from_openmeteo.py` (Pittsburgh forecast variant) -/

/-- `get_forecast_data`: identical failure routing to
`WeatherEtl.get_weather_data`. -/
def ForecastEtl.get_forecast_data (outcome : FetchOutcome ForecastData) : Option ForecastData :=
  match outcome with
  | FetchOutcome.networkError => none
  | FetchOutcome.httpStatusError _ => none
  | FetchOutcome.jsonDecodeError => none
  | FetchOutcome.success payload => some payload

/-- `load_coordinates`: raises `KeyError` when the catalog JSON object has no
`neighborhoods` key, otherwise returns that list. -/
def ForecastEtl.load_coordinates (data : CatalogJson) : Except EtlError (List NeighborhoodEntry) :=
  match data.neighborhoods with
  | none => Except.error (EtlError.keyError "coordinates.json must contain 'neighborhoods' key")
  | some l => Except.ok l

/-- `get_or_create_date(cursor, observation_time, schema)` with the same
interleaving point as the NYC variant; the only difference from
`WeatherEtl.get_or_create_date_steps` is the schema parameter. -/
def ForecastEtl.get_or_create_date_steps (dates : DateTable)
    (between : DateTable → DateTable) (observation_time : IsoDateTime) (schema : String) :
    Except EtlError (DateTable × Nat × List Stmt) :=
  let date_only := observation_time.date
  match dimDateLookup dates date_only with
  | some id => Except.ok (dates, id, [Stmt.selectDateId schema date_only])
  | none =>
    let dates1 := between dates
    match sqlInsertDate dates1 date_only with
    | Except.error e => Except.error e
    | Except.ok (dates2, id) =>
        Except.ok (dates2, id,
          [Stmt.selectDateId schema date_only, Stmt.insertDate schema date_only])

/-- `get_or_create_date` as executed single-threaded. -/
def ForecastEtl.get_or_create_date (dates : DateTable) (observation_time : IsoDateTime)
    (schema : String) : Except EtlError (DateTable × Nat × List Stmt) :=
  ForecastEtl.get_or_create_date_steps dates (fun x => x) observation_time schema

/-- `insert_or_update_location(cursor, neighborhood_name, latitude, longitude,
schema)`: single atomic upsert; this variant has no community_board column in
its INSERT and leaves it untouched on update. -/
def ForecastEtl.insert_or_update_location (now : Nat) (locs : LocTable)
    (neighborhood_name : String) (latitude longitude : Int) (schema : String) :
    LocTable × Nat × List Stmt :=
  let res : LocTable × Nat :=
    match locs.rows.find? (fun r => decide (r.latitude = latitude ∧ r.longitude = longitude)) with
    | some r =>
        ({ locs with rows := locs.rows.map (fun q =>
            if q.latitude = latitude ∧ q.longitude = longitude then
              { q with neighborhood_name := neighborhood_name, updated_at := now }
            else q) },
         r.locationId)
    | none =>
        ({ rows := locs.rows ++
             [{ locationId := locs.nextId, neighborhood_name := neighborhood_name,
                latitude := latitude, longitude := longitude,
                community_board := none, updated_at := now }],
           nextId := locs.nextId + 1 },
         locs.nextId)
  (res.1, res.2, [Stmt.upsertLocation schema neighborhood_name latitude longitude none])

/-- `hourly.get(key, [])`. -/
def hourlyValues (hourly : HourlyBlock) (key : String) : List (Option Val) :=
  (List.lookup key hourly.fields).getD []

/-- `get_value(key, index)`: `values[index] if index < len(values) else None`.
An in-range element may itself be a JSON null. -/
def ForecastEtl.get_value (hourly : HourlyBlock) (key : String) (index : Nat) : Option Val :=
  let values := hourlyValues hourly key
  if h : index < values.length then values.get ⟨index, h⟩ else none

/-- The `for i in range(len(times))` loop body of
`insert_forecast_observations`: parse the hour's timestamp, resolve its date
row, build the 33-column row via `get_value`, execute the conflict-safe upsert
and count it. -/
def ForecastEtl.forecastHours (hourly : HourlyBlock) (location_id : Nat) (schema : String) :
    Nat → List String → DateTable → List ForecastRow →
    Except EtlError (DateTable × List ForecastRow × Nat × List Stmt)
  | _, [], dates, rows => Except.ok (dates, rows, 0, [])
  | i, time_str :: rest, dates, rows =>
    match parsePayloadTime time_str with
    | none => Except.error EtlError.parseFailure
    | some forecast_time =>
      match ForecastEtl.get_or_create_date dates forecast_time schema with
      | Except.error e => Except.error e
      | Except.ok (dates', date_id, tr1) =>
        let row : ForecastRow :=
          { locationId := location_id, dateId := date_id, forecastTime := forecast_time,
            values := forecastFieldOrder.map (fun k => ForecastEtl.get_value hourly k i) }
        match ForecastEtl.forecastHours hourly location_id schema (i + 1) rest dates'
                (upsertForecastRow rows row) with
        | Except.error e => Except.error e
        | Except.ok (dates'', rows'', n, tr2) =>
            Except.ok (dates'', rows'', n + 1,
                       tr1 ++ [Stmt.upsertForecast schema row] ++ tr2)

/-- `insert_forecast_observations(cursor, location_id, forecast_data, schema)`:
raises `ValueError` when the hourly block or its time array is missing/empty,
otherwise iterates every index of the time array and returns the number of
rows written. -/
def ForecastEtl.insert_forecast_observations (dates : DateTable) (rows : List ForecastRow)
    (location_id : Nat) (forecast_data : ForecastData) (schema : String) :
    Except EtlError (DateTable × List ForecastRow × Nat × List Stmt) :=
  match forecast_data.hourly with
  | none => Except.error (EtlError.valueError "No hourly forecast data available")
  | some hourly =>
    if hourly.time = [] then
      Except.error (EtlError.valueError "No time data in hourly forecast")
    else
      ForecastEtl.forecastHours hourly location_id schema 0 hourly.time dates rows

/-! ## The `main()` batch loops of the two scripts

The environment is a function from coordinates to the fetch outcome of the one
HTTP call made for that point.  `now` is the clock used for
`CURRENT_TIMESTAMP`.  Both loops commit after every successful point and roll
back (work := committed) when a point's write raises. -/

structure WeatherLoopState where
  conn : Conn
  success_count : Nat
  error_count : Nat
deriving DecidableEq, Repr

/-- One iteration of the inner neighborhood loop of `WeatherEtl.main`:
fetch, upsert location, insert observation, then `conn.commit()`; on a
raised exception `conn.rollback()` and count the error; a fetch failure only
counts the error. -/
def WeatherEtl.processNeighborhood (env : Int → Int → FetchOutcome WeatherData) (now : Nat)
    (cb : CommunityBoard) (st : WeatherLoopState) (nd : NeighborhoodEntry) : WeatherLoopState :=
  let borough := cb.borough.getD "None"
  let board := cb.board.getD "None"
  let community_board := borough ++ " " ++ board
  let full_name := borough ++ " - " ++ nd.name
  match WeatherEtl.get_weather_data (env nd.latitude nd.longitude) with
  | none => { st with error_count := st.error_count + 1 }
  | some weather_data =>
    let conn := st.conn
    let (locs', location_id, _) :=
      WeatherEtl.insert_or_update_location now conn.work.locs full_name
        nd.latitude nd.longitude (some community_board)
    let work1 : Db := { conn.work with locs := locs' }
    match WeatherEtl.insert_weather_observation work1.dates work1.facts location_id weather_data with
    | Except.ok (dates', facts', _) =>
        let work2 : Db := { work1 with dates := dates', facts := facts' }
        { conn := { committed := work2, work := work2 },
          success_count := st.success_count + 1, error_count := st.error_count }
    | Except.error _ =>
        { conn := { committed := conn.committed, work := conn.committed },
          success_count := st.success_count, error_count := st.error_count + 1 }

def WeatherEtl.neighborhoodLoop (env : Int → Int → FetchOutcome WeatherData) (now : Nat)
    (cb : CommunityBoard) : List NeighborhoodEntry → WeatherLoopState → WeatherLoopState
  | [], st => st
  | nd :: rest, st =>
      WeatherEtl.neighborhoodLoop env now cb rest (WeatherEtl.processNeighborhood env now cb st nd)

def WeatherEtl.boardLoop (env : Int → Int → FetchOutcome WeatherData) (now : Nat) :
    List CommunityBoard → WeatherLoopState → WeatherLoopState
  | [], st => st
  | cb :: rest, st =>
      WeatherEtl.boardLoop env now rest
        (WeatherEtl.neighborhoodLoop env now cb (cb.neighborhoods.getD []) st)

/-- `WeatherEtl.main` after a successful catalog load and database connection:
`community_boards = data.get('community_boards', [])`, the nested loop, then
the final `(success_count, error_count)` summary line alongside the committed
database state. -/
def WeatherEtl.mainRun (env : Int → Int → FetchOutcome WeatherData) (now : Nat)
    (data : CatalogJson) (db0 : Db) : Nat × Nat × Db :=
  let community_boards := data.community_boards.getD []
  let st0 : WeatherLoopState := ⟨⟨db0, db0⟩, 0, 0⟩
  let stF := WeatherEtl.boardLoop env now community_boards st0
  (stF.success_count, stF.error_count, stF.conn.committed)

structure EtlForecastState where
  conn : Conn
  success_count : Nat
  error_count : Nat
  total_forecasts : Nat
deriving DecidableEq, Repr

/-- One iteration of the neighborhood loop of `ForecastEtl.main`: fetch,
upsert location, insert the hourly forecasts, `conn.commit()` on success
(also adding the returned count to the running total), `conn.rollback()` on a
raised exception. -/
def ForecastEtl.processNeighborhood (env : Int → Int → FetchOutcome ForecastData) (now : Nat)
    (schema : String) (st : EtlForecastState) (nd : NeighborhoodEntry) : EtlForecastState :=
  match ForecastEtl.get_forecast_data (env nd.latitude nd.longitude) with
  | none => { st with error_count := st.error_count + 1 }
  | some forecast_data =>
    let conn := st.conn
    let (locs', location_id, _) :=
      ForecastEtl.insert_or_update_location now conn.work.locs nd.name
        nd.latitude nd.longitude schema
    let work1 : Db := { conn.work with locs := locs' }
    match ForecastEtl.insert_forecast_observations work1.dates work1.forecasts
            location_id forecast_data schema with
    | Except.ok (dates', rows', forecast_count, _) =>
        let work2 : Db := { work1 with dates := dates', forecasts := rows' }
        { conn := { committed := work2, work := work2 },
          success_count := st.success_count + 1, error_count := st.error_count,
          total_forecasts := st.total_forecasts + forecast_count }
    | Except.error _ =>
        { conn := { committed := conn.committed, work := conn.committed },
          success_count := st.success_count, error_count := st.error_count + 1,
          total_forecasts := st.total_forecasts }

/-- The `for neighborhood in neighborhoods` loop of `ForecastEtl.main`
(lines 371–399 of the source file). -/
def ForecastEtl.mainLoop (env : Int → Int → FetchOutcome ForecastData) (now : Nat)
    (schema : String) : List NeighborhoodEntry → EtlForecastState → EtlForecastState
  | [], st => st
  | nd :: rest, st =>
      ForecastEtl.mainLoop env now schema rest (ForecastEtl.processNeighborhood env now schema st nd)

/-- `ForecastEtl.main` after a successful database connection: load the
catalog (early return on `KeyError`), run the loop from a fresh connection,
report `(success_count, error_count, total_forecasts)` plus the committed
state.  `schemaEnv` is `os.getenv('WEATHER_DB_SCHEMA')`, defaulted to
`pittsburgh`. -/
def ForecastEtl.mainRun (env : Int → Int → FetchOutcome ForecastData) (now : Nat)
    (schemaEnv : Option String) (data : CatalogJson) (db0 : Db) :
    Option (Nat × Nat × Nat × Db) :=
  let schema := schemaEnv.getD "pittsburgh"
  match ForecastEtl.load_coordinates data with
  | Except.error _ => none
  | Except.ok neighborhoods =>
    let st0 : EtlForecastState := ⟨⟨db0, db0⟩, 0, 0, 0⟩
    let stF := ForecastEtl.mainLoop env now schema neighborhoods st0
    some (stF.success_count, stF.error_count, stF.total_forecasts, stF.conn.committed)

/-! ## The DAG load tasks (`dags/weather_etl_dag.py`)

Both tasks receive the already-fetched observations from the extract tasks,
open one connection, and — unlike the standalone scripts — commit only once
after the whole loop, while rolling back inside the loop on a per-observation
error. -/

structure WeatherObs where
  neighborhood_name : String
  latitude : Int
  longitude : Int
  weather_data : WeatherData
deriving DecidableEq, Repr

structure ForecastObs where
  neighborhood_name : String
  latitude : Int
  longitude : Int
  forecast_data : ForecastData
deriving DecidableEq, Repr

structure CurrentSummary where
  total_observations : Nat
  successful_loads : Nat
  failed_loads : Nat
deriving DecidableEq, Repr

structure ForecastSummary where
  rows_cleared : Nat
  total_neighborhoods : Nat
  successful_loads : Nat
  failed_loads : Nat
  total_forecasts : Nat
deriving DecidableEq, Repr

structure DagCurrentState where
  conn : Conn
  success_count : Nat
  error_count : Nat
  trace : List Ev
deriving DecidableEq, Repr

structure DagForecastState where
  conn : Conn
  success_count : Nat
  error_count : Nat
  total_forecasts : Nat
  trace : List Ev
deriving DecidableEq, Repr

/-- The DAG's call
`insert_weather_observation(cursor, location_id, obs['weather_data'], schema)`
passes four positional arguments, but
`extract_weather_from_openmeteo.insert_weather_observation` is defined with
the three parameters `(cursor, location_id, weather_data)` — so Python raises
`TypeError` at the call site, before the callee body (and hence any dim_date
or fact_current_weather statement) can execute. -/
def Dag.insertWeatherObservationCall (_dates : DateTable) (_facts : List CurrentRow)
    (_location_id : Nat) (_weather_data : WeatherData) (_schema : String) :
    Except EtlError (DateTable × List CurrentRow × List Stmt) :=
  Except.error EtlError.typeError

/-- One iteration of the `load_current_weather` loop: the five-positional-arg
call to `insert_or_update_location` binds the schema string to the
`community_board` parameter (the statement still targets the hard-coded
`weather.` schema), then the four-arg observation call raises and the handler
rolls back and counts the failure. -/
def Dag.currentObsStep (now : Nat) (schema : String) (st : DagCurrentState)
    (obs : WeatherObs) : DagCurrentState :=
  let conn := st.conn
  let (locs', location_id, tr1) :=
    WeatherEtl.insert_or_update_location now conn.work.locs obs.neighborhood_name
      obs.latitude obs.longitude (some schema)
  let work1 : Db := { conn.work with locs := locs' }
  match Dag.insertWeatherObservationCall work1.dates work1.facts location_id
          obs.weather_data schema with
  | Except.ok (dates', facts', tr2) =>
      { st with conn := { conn with work := { work1 with dates := dates', facts := facts' } },
                success_count := st.success_count + 1,
                trace := st.trace ++ (tr1 ++ tr2).map Ev.stmt }
  | Except.error _ =>
      { st with conn := { committed := conn.committed, work := conn.committed },
                error_count := st.error_count + 1,
                trace := st.trace ++ tr1.map Ev.stmt ++ [Ev.rollback] }

def Dag.currentLoop (now : Nat) (schema : String) :
    List WeatherObs → DagCurrentState → DagCurrentState
  | [], st => st
  | obs :: rest, st => Dag.currentLoop now schema rest (Dag.currentObsStep now schema st obs)

/-- `load_current_weather`: loop over the observations, then one
`conn.commit()`, then the summary dict. -/
def Dag.load_current_weather (now : Nat) (db0 : Db) (weather_observations : List WeatherObs)
    (schema : String) : CurrentSummary × Db × List Ev :=
  let st0 : DagCurrentState := ⟨⟨db0, db0⟩, 0, 0, []⟩
  let stF := Dag.currentLoop now schema weather_observations st0
  ({ total_observations := weather_observations.length,
     successful_loads := stF.success_count,
     failed_loads := stF.error_count },
   stF.conn.work,
   stF.trace ++ [Ev.commit])

/-- One iteration of the `load_forecast_weather` loop: location upsert and
forecast insert on the working state (no commit); on a raised exception the
handler rolls back — discarding every uncommitted write of *earlier*
iterations as well — and counts the failure. -/
def Dag.forecastObsStep (now : Nat) (schema : String) (st : DagForecastState)
    (obs : ForecastObs) : DagForecastState :=
  let conn := st.conn
  let (locs', location_id, tr1) :=
    ForecastEtl.insert_or_update_location now conn.work.locs obs.neighborhood_name
      obs.latitude obs.longitude schema
  let work1 : Db := { conn.work with locs := locs' }
  match ForecastEtl.insert_forecast_observations work1.dates work1.forecasts location_id
          obs.forecast_data schema with
  | Except.ok (dates', rows', forecast_count, tr2) =>
      { st with conn := { conn with work := { work1 with dates := dates', forecasts := rows' } },
                success_count := st.success_count + 1,
                total_forecasts := st.total_forecasts + forecast_count,
                trace := st.trace ++ (tr1 ++ tr2).map Ev.stmt }
  | Except.error _ =>
      { st with conn := { committed := conn.committed, work := conn.committed },
                error_count := st.error_count + 1,
                trace := st.trace ++ tr1.map Ev.stmt ++ [Ev.rollback] }

def Dag.forecastLoop (now : Nat) (schema : String) :
    List ForecastObs → DagForecastState → DagForecastState
  | [], st => st
  | obs :: rest, st => Dag.forecastLoop now schema rest (Dag.forecastObsStep now schema st obs)

/-- `load_forecast_weather`: count the existing forecast rows, `TRUNCATE` the
table, `conn.commit()` — all before the loop — then load every observation and
commit once at the end. -/
def Dag.load_forecast_weather (now : Nat) (db0 : Db) (forecast_observations : List ForecastObs)
    (schema : String) : ForecastSummary × Db × List Ev :=
  let conn0 : Conn := ⟨db0, db0⟩
  let rows_cleared := conn0.work.forecasts.length
  let workT : Db := { conn0.work with forecasts := [] }
  let conn1 : Conn := ⟨workT, workT⟩
  let tr0 : List Ev :=
    [Ev.stmt (Stmt.countForecast schema), Ev.stmt (Stmt.truncateForecast schema), Ev.commit]
  let st0 : DagForecastState := ⟨conn1, 0, 0, 0, tr0⟩
  let stF := Dag.forecastLoop now schema forecast_observations st0
  ({ rows_cleared := rows_cleared,
     total_neighborhoods := forecast_observations.length,
     successful_loads := stF.success_count,
     failed_loads := stF.error_count,
     total_forecasts := stF.total_forecasts },
   stF.conn.work,
   stF.trace ++ [Ev.commit])

/-! ## Trace extraction helpers -/

def isTruncStmt (s : Stmt) : Bool :=
  match s with
  | Stmt.truncateForecast _ => true
  | _ => false

def forecastInsertOfStmt (s : Stmt) : Option ForecastRow :=
  match s with
  | Stmt.upsertForecast _ r => some r
  | _ => none

def stmtForecastInserts (tr : List Stmt) : List ForecastRow :=
  tr.filterMap forecastInsertOfStmt

def stmtTruncCount (tr : List Stmt) : Nat := tr.countP isTruncStmt

def isTruncEv (e : Ev) : Bool :=
  match e with
  | Ev.stmt s => isTruncStmt s
  | _ => false

def forecastInsertOfEv (e : Ev) : Option ForecastRow :=
  match e with
  | Ev.stmt s => forecastInsertOfStmt s
  | _ => none

def evForecastInserts (tr : List Ev) : List ForecastRow :=
  tr.filterMap forecastInsertOfEv

def evTruncCount (tr : List Ev) : Nat := tr.countP isTruncEv

lemma stmtForecastInserts_append (a b : List Stmt) :
    stmtForecastInserts (a ++ b) = stmtForecastInserts a ++ stmtForecastInserts b := by
  simp [stmtForecastInserts, List.filterMap_append]

lemma stmtTruncCount_append (a b : List Stmt) :
    stmtTruncCount (a ++ b) = stmtTruncCount a + stmtTruncCount b := by
  simp [stmtTruncCount, List.countP_append]

lemma evForecastInserts_append (a b : List Ev) :
    evForecastInserts (a ++ b) = evForecastInserts a ++ evForecastInserts b := by
  simp [evForecastInserts, List.filterMap_append]

lemma evTruncCount_append (a b : List Ev) :
    evTruncCount (a ++ b) = evTruncCount a + evTruncCount b := by
  simp [evTruncCount, List.countP_append]

lemma evForecastInserts_map_stmt (tr : List Stmt) :
    evForecastInserts (tr.map Ev.stmt) = stmtForecastInserts tr := by
  induction tr with
  | nil => rfl
  | cons s rest ih =>
      simp [evForecastInserts, stmtForecastInserts, List.filterMap_cons] at ih ⊢
      cases h : forecastInsertOfStmt s <;>
        simp [forecastInsertOfEv, h, ih]

lemma evTruncCount_map_stmt (tr : List Stmt) :
    evTruncCount (tr.map Ev.stmt) = stmtTruncCount tr := by
  induction tr with
  | nil => rfl
  | cons s rest ih =>
      simp [evTruncCount, stmtTruncCount, List.countP_cons] at ih ⊢
      simp [isTruncEv, ih]

lemma applyRows_append (a b : List ForecastRow) (s : List ForecastRow) :
    applyRows (a ++ b) s = applyRows b (applyRows a s) := by
  simp [applyRows, List.foldl_append]

/-! ## Date resolution lemmas -/

lemma dimDateLookup_none_any (dates : DateTable) (d : Date)
    (h : dimDateLookup dates d = none) :
    dates.rows.any (fun r => decide (r.date = d)) = false := by
  simp only [dimDateLookup, Option.map_eq_none'] at h
  have hall := List.find?_eq_none.mp h
  simp only [Bool.eq_false_iff, ne_eq, List.any_eq_true, not_exists, not_and]
  exact fun x hx => hall x hx

lemma ForecastEtl.gocd_found (dates : DateTable) (t : IsoDateTime) (schema : String) (id : Nat)
    (h : dimDateLookup dates t.date = some id) :
    ForecastEtl.get_or_create_date dates t schema =
      Except.ok (dates, id, [Stmt.selectDateId schema t.date]) := by
  simp [ForecastEtl.get_or_create_date, ForecastEtl.get_or_create_date_steps, h]

lemma ForecastEtl.gocd_notfound (dates : DateTable) (t : IsoDateTime) (schema : String)
    (h : dimDateLookup dates t.date = none) :
    ForecastEtl.get_or_create_date dates t schema =
      Except.ok
        ({ rows := dates.rows ++ [mkDateRow dates.nextId t.date], nextId := dates.nextId + 1 },
         dates.nextId,
         [Stmt.selectDateId schema t.date, Stmt.insertDate schema t.date]) := by
  have hany := dimDateLookup_none_any dates t.date h
  simp [ForecastEtl.get_or_create_date, ForecastEtl.get_or_create_date_steps, h,
        sqlInsertDate, hany]

lemma dimDateLookup_append_new (dates : DateTable) (d : Date)
    (h : dimDateLookup dates d = none) :
    dimDateLookup ⟨dates.rows ++ [mkDateRow dates.nextId d], dates.nextId + 1⟩ d =
      some dates.nextId := by
  simp only [dimDateLookup, Option.map_eq_none'] at h
  simp only [dimDateLookup]
  rw [List.find?_append, h]
  simp [mkDateRow]

/-- Single-session `get_or_create_date` always succeeds, executes no forecast
insert and no truncate, and afterwards the returned id is what a lookup of the
date finds. -/
lemma ForecastEtl.gocd_spec (dates : DateTable) (t : IsoDateTime) (schema : String) :
    ∃ dates' id tr,
      ForecastEtl.get_or_create_date dates t schema = Except.ok (dates', id, tr) ∧
      stmtForecastInserts tr = [] ∧ stmtTruncCount tr = 0 ∧
      dimDateLookup dates' t.date = some id := by
  cases h : dimDateLookup dates t.date with
  | some id =>
      exact ⟨dates, id, _, ForecastEtl.gocd_found dates t schema id h,
             by simp [stmtForecastInserts, forecastInsertOfStmt],
             by simp [stmtTruncCount, isTruncStmt], h⟩
  | none =>
      refine ⟨_, _, _, ForecastEtl.gocd_notfound dates t schema h, ?_, ?_, ?_⟩
      · simp [stmtForecastInserts, forecastInsertOfStmt]
      · simp [stmtTruncCount, isTruncStmt]
      · exact dimDateLookup_append_new dates t.date h


/-! ## Location upsert lemmas -/

lemma find?_map_locpred (lat lon : Int) (f : LocRow → LocRow)
    (hf : ∀ q, (f q).latitude = q.latitude ∧ (f q).longitude = q.longitude)
    (l : List LocRow) :
    (l.map f).find? (fun r => decide (r.latitude = lat ∧ r.longitude = lon)) =
      (l.find? (fun r => decide (r.latitude = lat ∧ r.longitude = lon))).map f := by
  induction l with
  | nil => rfl
  | cons a rest ih =>
      by_cases hpa : a.latitude = lat ∧ a.longitude = lon
      · have hfa : (f a).latitude = lat ∧ (f a).longitude = lon := by
          rcases hf a with ⟨h1, h2⟩
          exact ⟨h1.trans hpa.1, h2.trans hpa.2⟩
        rw [List.map_cons, List.find?_cons_of_pos, List.find?_cons_of_pos] <;>
          simp [hpa, hfa]
      · have hfa : ¬ ((f a).latitude = lat ∧ (f a).longitude = lon) := by
          rcases hf a with ⟨h1, h2⟩
          rw [h1, h2]; exact hpa
        rw [List.map_cons, List.find?_cons_of_neg, List.find?_cons_of_neg, ih] <;>
          simp [hpa, hfa]

/-- Post-state of one Pittsburgh-variant location upsert: a lookup of the
coordinate key finds a row carrying the returned id, and every row with that
key stores the name just supplied. -/
lemma ForecastEtl.iul_spec_forecast (now : Nat) (locs : LocTable) (name : String)
    (lat lon : Int) (schema : String) :
    (((ForecastEtl.insert_or_update_location now locs name lat lon schema).1.rows.find?
        (fun r => decide (r.latitude = lat ∧ r.longitude = lon))).map
          (fun r => r.locationId)) =
      some (ForecastEtl.insert_or_update_location now locs name lat lon schema).2.1 ∧
    (∀ r ∈ (ForecastEtl.insert_or_update_location now locs name lat lon schema).1.rows,
       r.latitude = lat → r.longitude = lon →
       r.neighborhood_name = name ∧ r.updated_at = now) := by
  unfold ForecastEtl.insert_or_update_location
  dsimp only
  cases h : locs.rows.find? (fun r => decide (r.latitude = lat ∧ r.longitude = lon)) with
  | some r =>
      constructor
      · have hmap := find?_map_locpred lat lon
          (fun q => if q.latitude = lat ∧ q.longitude = lon then
              { q with neighborhood_name := name, updated_at := now } else q)
          (fun q => by by_cases hq : q.latitude = lat ∧ q.longitude = lon <;> simp [hq])
          locs.rows
        rw [hmap, h]
        have hkey : r.latitude = lat ∧ r.longitude = lon := by
          simpa using List.find?_some h
        simp [hkey]
      · intro q hq hla hlo
        simp only [List.mem_map] at hq
        obtain ⟨q0, hq0, hq0eq⟩ := hq
        by_cases hk : q0.latitude = lat ∧ q0.longitude = lon
        · rw [← hq0eq]; simp [hk]
        · exfalso
          rw [← hq0eq] at hla hlo
          simp [hk] at hla hlo
          exact hk ⟨hla, hlo⟩
  | none =>
      have hall := List.find?_eq_none.mp h
      constructor
      · rw [List.find?_append, h]
        simp
      · intro q hq hla hlo
        rw [List.mem_append] at hq
        cases hq with
        | inl hmem =>
            exact absurd (by simp [hla, hlo]) (hall q hmem)
        | inr hnew =>
            simp at hnew
            rw [hnew]
            exact ⟨rfl, rfl⟩

/-- Post-state of one NYC-variant location upsert (also updates the
community_board column). -/
lemma WeatherEtl.iul_spec_weather (now : Nat) (locs : LocTable) (name : String)
    (lat lon : Int) (cb : Option String) :
    (((WeatherEtl.insert_or_update_location now locs name lat lon cb).1.rows.find?
        (fun r => decide (r.latitude = lat ∧ r.longitude = lon))).map
          (fun r => r.locationId)) =
      some (WeatherEtl.insert_or_update_location now locs name lat lon cb).2.1 ∧
    (∀ r ∈ (WeatherEtl.insert_or_update_location now locs name lat lon cb).1.rows,
       r.latitude = lat → r.longitude = lon →
       r.neighborhood_name = name ∧ r.community_board = cb ∧ r.updated_at = now) := by
  unfold WeatherEtl.insert_or_update_location
  dsimp only
  cases h : locs.rows.find? (fun r => decide (r.latitude = lat ∧ r.longitude = lon)) with
  | some r =>
      constructor
      · have hmap := find?_map_locpred lat lon
          (fun q => if q.latitude = lat ∧ q.longitude = lon then
              { q with neighborhood_name := name, community_board := cb, updated_at := now }
            else q)
          (fun q => by by_cases hq : q.latitude = lat ∧ q.longitude = lon <;> simp [hq])
          locs.rows
        rw [hmap, h]
        have hkey : r.latitude = lat ∧ r.longitude = lon := by
          simpa using List.find?_some h
        simp [hkey]
      · intro q hq hla hlo
        simp only [List.mem_map] at hq
        obtain ⟨q0, hq0, hq0eq⟩ := hq
        by_cases hk : q0.latitude = lat ∧ q0.longitude = lon
        · rw [← hq0eq]; simp [hk]
        · exfalso
          rw [← hq0eq] at hla hlo
          simp [hk] at hla hlo
          exact hk ⟨hla, hlo⟩
  | none =>
      have hall := List.find?_eq_none.mp h
      constructor
      · rw [List.find?_append, h]
        simp
      · intro q hq hla hlo
        rw [List.mem_append] at hq
        cases hq with
        | inl hmem =>
            exact absurd (by simp [hla, hlo]) (hall q hmem)
        | inr hnew =>
            simp at hnew
            rw [hnew]
            exact ⟨rfl, rfl, rfl⟩

/-! ## Forecast write loop lemmas -/

/-- The per-hour loop of `insert_forecast_observations` never fails when every
hour's timestamp parses: it writes exactly one row per hour, the resulting
fact table is the fold of its trace's forecast-insert statements over the
input table, and it executes no truncate. -/
lemma ForecastEtl.forecastHours_spec (hourly : HourlyBlock) (location_id : Nat)
    (schema : String) :
    ∀ (ts : List String) (i : Nat) (dates : DateTable) (rows : List ForecastRow),
      (∀ s ∈ ts, (parsePayloadTime s).isSome) →
      ∃ dates' rows' tr,
        ForecastEtl.forecastHours hourly location_id schema i ts dates rows =
          Except.ok (dates', rows', ts.length, tr) ∧
        rows' = applyRows (stmtForecastInserts tr) rows ∧
        stmtTruncCount tr = 0 := by
  intro ts
  induction ts with
  | nil =>
      intro i dates rows _
      exact ⟨dates, rows, [], rfl, rfl, rfl⟩
  | cons s rest ih =>
      intro i dates rows hparse
      obtain ⟨t, ht⟩ := Option.isSome_iff_exists.mp (hparse s (by simp))
      obtain ⟨dates1, id1, tr1, hg, hins1, htrunc1, _⟩ := ForecastEtl.gocd_spec dates t schema
      obtain ⟨dates2, rows2, tr2, hrec, hrows2, htrunc2⟩ :=
        ih (i + 1) dates1
          (upsertForecastRow rows
            { locationId := location_id, dateId := id1, forecastTime := t,
              values := forecastFieldOrder.map (fun k => ForecastEtl.get_value hourly k i) })
          (fun x hx => hparse x (by simp [hx]))
      refine ⟨dates2, rows2, tr1 ++
        [Stmt.upsertForecast schema
          { locationId := location_id, dateId := id1, forecastTime := t,
            values := forecastFieldOrder.map (fun k => ForecastEtl.get_value hourly k i) }] ++
        tr2, ?_, ?_, ?_⟩
      · simp only [ForecastEtl.forecastHours, ht, hg, hrec, List.length_cons]
      · rw [stmtForecastInserts_append, stmtForecastInserts_append, hins1]
        rw [hrows2]
        simp [stmtForecastInserts, forecastInsertOfStmt, applyRows]
      · rw [stmtTruncCount_append, stmtTruncCount_append, htrunc1, htrunc2]
        simp [stmtTruncCount, isTruncStmt]

/-- `insert_forecast_observations` on a payload that has a non-empty hourly
time array whose entries all parse: succeeds, returns one row per hour, final
table is the fold of the trace's inserts, no truncates. -/
lemma ForecastEtl.ifo_spec (dates : DateTable) (rows : List ForecastRow) (location_id : Nat)
    (fd : ForecastData) (schema : String) (hb : HourlyBlock)
    (hhb : fd.hourly = some hb) (hne : hb.time ≠ [])
    (hparse : ∀ s ∈ hb.time, (parsePayloadTime s).isSome) :
    ∃ dates' rows' tr,
      ForecastEtl.insert_forecast_observations dates rows location_id fd schema =
        Except.ok (dates', rows', hb.time.length, tr) ∧
      rows' = applyRows (stmtForecastInserts tr) rows ∧
      stmtTruncCount tr = 0 := by
  obtain ⟨dates', rows', tr, h1, h2, h3⟩ :=
    ForecastEtl.forecastHours_spec hb location_id schema hb.time 0 dates rows hparse
  refine ⟨dates', rows', tr, ?_, h2, h3⟩
  simp [ForecastEtl.insert_forecast_observations, hhb, hne, h1]

/-- One DAG forecast-loop step preserves the committed state and tallies
exactly one of success/failure. -/
lemma Dag.forecastObsStep_counts (now : Nat) (schema : String)
    (st : DagForecastState) (obs : ForecastObs) :
    (Dag.forecastObsStep now schema st obs).conn.committed = st.conn.committed ∧
    (Dag.forecastObsStep now schema st obs).success_count +
        (Dag.forecastObsStep now schema st obs).error_count =
      st.success_count + st.error_count + 1 := by
  unfold Dag.forecastObsStep
  dsimp only
  split
  · exact ⟨rfl, by dsimp only; omega⟩
  · exact ⟨rfl, by dsimp only; omega⟩

/-- The DAG forecast loop preserves the committed state and tallies every
observation exactly once. -/
lemma Dag.forecastLoop_counts (now : Nat) (schema : String) :
    ∀ (l : List ForecastObs) (st : DagForecastState),
      (Dag.forecastLoop now schema l st).conn.committed = st.conn.committed ∧
      (Dag.forecastLoop now schema l st).success_count +
          (Dag.forecastLoop now schema l st).error_count =
        st.success_count + st.error_count + l.length := by
  intro l
  induction l with
  | nil => intro st; exact ⟨rfl, by simp [Dag.forecastLoop]⟩
  | cons o rest ih =>
      intro st
      obtain ⟨hc, hn⟩ := Dag.forecastObsStep_counts now schema st o
      obtain ⟨hc', hn'⟩ := ih (Dag.forecastObsStep now schema st o)
      refine ⟨?_, ?_⟩
      · simpa [Dag.forecastLoop, hc] using hc'
      · simp only [Dag.forecastLoop, List.length_cons]
        omega

/-- One standalone forecast-script loop step tallies exactly one of
success/failure. -/
lemma ForecastEtl.processNeighborhood_counts
    (env : Int → Int → FetchOutcome ForecastData) (now : Nat) (schema : String)
    (st : EtlForecastState) (nd : NeighborhoodEntry) :
    (ForecastEtl.processNeighborhood env now schema st nd).success_count +
        (ForecastEtl.processNeighborhood env now schema st nd).error_count =
      st.success_count + st.error_count + 1 := by
  unfold ForecastEtl.processNeighborhood
  dsimp only
  split
  · dsimp only; omega
  · split
    · dsimp only; omega
    · dsimp only; omega

/-- The standalone forecast-script loop tallies every point exactly once: no
single point's failure ends the batch early. -/
lemma ForecastEtl.mainLoop_counts (env : Int → Int → FetchOutcome ForecastData)
    (now : Nat) (schema : String) :
    ∀ (l : List NeighborhoodEntry) (st : EtlForecastState),
      (ForecastEtl.mainLoop env now schema l st).success_count +
          (ForecastEtl.mainLoop env now schema l st).error_count =
        st.success_count + st.error_count + l.length := by
  intro l
  induction l with
  | nil => intro st; simp [ForecastEtl.mainLoop]
  | cons nd rest ih =>
      intro st
      have hstep := ForecastEtl.processNeighborhood_counts env now schema st nd
      have hrest := ih (ForecastEtl.processNeighborhood env now schema st nd)
      simp only [ForecastEtl.mainLoop, List.length_cons]
      omega

lemma ForecastEtl.iul_trace_forecast (now : Nat) (locs : LocTable) (name : String)
    (lat lon : Int) (schema : String) :
    (ForecastEtl.insert_or_update_location now locs name lat lon schema).2.2 =
      [Stmt.upsertLocation schema name lat lon none] := rfl

lemma WeatherEtl.iul_trace_weather (now : Nat) (locs : LocTable) (name : String)
    (lat lon : Int) (cb : Option String) :
    (WeatherEtl.insert_or_update_location now locs name lat lon cb).2.2 =
      [Stmt.upsertLocation "weather" name lat lon cb] := rfl

/-- A forecast observation whose payload lets `insert_forecast_observations`
run to completion: a non-empty hourly time array whose entries all parse. -/
def ForecastObsWF (obs : ForecastObs) : Prop :=
  ∃ hb, obs.forecast_data.hourly = some hb ∧ hb.time ≠ [] ∧
    ∀ s ∈ hb.time, (parsePayloadTime s).isSome

/-- A well-formed DAG forecast step succeeds: the trace grows by truncate-free
events whose forecast inserts, folded over the working table, give the new
working table; the committed state is untouched. -/
lemma Dag.forecastObsStep_wf (now : Nat) (schema : String)
    (st : DagForecastState) (obs : ForecastObs) (hwf : ForecastObsWF obs) :
    ∃ trNew,
      (Dag.forecastObsStep now schema st obs).trace = st.trace ++ trNew ∧
      evTruncCount trNew = 0 ∧
      (Dag.forecastObsStep now schema st obs).conn.work.forecasts =
        applyRows (evForecastInserts trNew) st.conn.work.forecasts ∧
      (Dag.forecastObsStep now schema st obs).conn.committed = st.conn.committed := by
  obtain ⟨hb, hhb, hne, hparse⟩ := hwf
  obtain ⟨dates', rows', tr, heq, hrows, htrunc⟩ :=
    ForecastEtl.ifo_spec st.conn.work.dates st.conn.work.forecasts
      (ForecastEtl.insert_or_update_location now st.conn.work.locs obs.neighborhood_name
        obs.latitude obs.longitude schema).2.1
      obs.forecast_data schema hb hhb hne hparse
  unfold Dag.forecastObsStep
  dsimp only
  rw [heq]
  dsimp only
  refine ⟨((ForecastEtl.insert_or_update_location now st.conn.work.locs obs.neighborhood_name
      obs.latitude obs.longitude schema).2.2 ++ tr).map Ev.stmt, rfl, ?_, ?_, rfl⟩
  · rw [ForecastEtl.iul_trace_forecast]
    rw [List.map_append, evTruncCount_append, evTruncCount_map_stmt, evTruncCount_map_stmt,
        htrunc]
    simp [stmtTruncCount, isTruncStmt]
  · rw [ForecastEtl.iul_trace_forecast]
    rw [List.map_append, evForecastInserts_append, evForecastInserts_map_stmt,
        evForecastInserts_map_stmt, applyRows_append]
    rw [hrows]
    simp [stmtForecastInserts, forecastInsertOfStmt, applyRows]

/-- The DAG forecast loop on all-well-formed observations: the trace grows by
truncate-free events, and folding the trace's forecast inserts over the
initial working table gives the final working table. -/
lemma Dag.forecastLoop_wf (now : Nat) (schema : String) :
    ∀ (l : List ForecastObs) (st : DagForecastState),
      (∀ o ∈ l, ForecastObsWF o) →
      ∃ trNew,
        (Dag.forecastLoop now schema l st).trace = st.trace ++ trNew ∧
        evTruncCount trNew = 0 ∧
        (Dag.forecastLoop now schema l st).conn.work.forecasts =
          applyRows (evForecastInserts trNew) st.conn.work.forecasts := by
  intro l
  induction l with
  | nil =>
      intro st _
      exact ⟨[], by simp [Dag.forecastLoop], rfl,
             by simp [Dag.forecastLoop, applyRows, evForecastInserts]⟩
  | cons o rest ih =>
      intro st hwf
      obtain ⟨trStep, hTr, hTrunc, hFc, _⟩ :=
        Dag.forecastObsStep_wf now schema st o (hwf o (by simp))
      obtain ⟨trRest, hTr', hTrunc', hFc'⟩ :=
        ih (Dag.forecastObsStep now schema st o) (fun x hx => hwf x (by simp [hx]))
      refine ⟨trStep ++ trRest, ?_, ?_, ?_⟩
      · simp only [Dag.forecastLoop]
        rw [hTr', hTr, List.append_assoc]
      · rw [evTruncCount_append, hTrunc, hTrunc']
      · simp only [Dag.forecastLoop]
        rw [hFc', hFc, evForecastInserts_append, applyRows_append]

lemma ForecastEtl.iul_found_forecast (now : Nat) (locs : LocTable) (name : String) (lat lon : Int)
    (schema : String) (r : LocRow)
    (h : locs.rows.find? (fun q => decide (q.latitude = lat ∧ q.longitude = lon)) = some r) :
    (ForecastEtl.insert_or_update_location now locs name lat lon schema).2.1 = r.locationId := by
  unfold ForecastEtl.insert_or_update_location
  dsimp only
  rw [h]

lemma WeatherEtl.iul_found_weather (now : Nat) (locs : LocTable) (name : String) (lat lon : Int)
    (cb : Option String) (r : LocRow)
    (h : locs.rows.find? (fun q => decide (q.latitude = lat ∧ q.longitude = lon)) = some r) :
    (WeatherEtl.insert_or_update_location now locs name lat lon cb).2.1 = r.locationId := by
  unfold WeatherEtl.insert_or_update_location
  dsimp only
  rw [h]

instance {ε α : Type} [DecidableEq ε] [DecidableEq α] : DecidableEq (Except ε α)
  | Except.ok a, Except.ok b =>
      if h : a = b then isTrue (by rw [h]) else isFalse (fun hh => h (Except.ok.inj hh))
  | Except.ok _, Except.error _ => isFalse (fun hh => Except.noConfusion hh)
  | Except.error _, Except.ok _ => isFalse (fun hh => Except.noConfusion hh)
  | Except.error a, Except.error b =>
      if h : a = b then isTrue (by rw [h]) else isFalse (fun hh => h (Except.error.inj hh))

/-! ## Claim theorems -/

/-- Claim C9: the weather fetch clients never raise on failure: a
network/timeout failure, a non-success HTTP status, and a malformed response
body each make `get_weather_data` / `get_forecast_data` return the sentinel
`None` to the caller, and only a fully successful request yields a payload,
so the calling loop can continue with the next point. -/
theorem fetch_failures_return_sentinel :
    (WeatherEtl.get_weather_data FetchOutcome.networkError = none) ∧
    (∀ code : Nat, WeatherEtl.get_weather_data (FetchOutcome.httpStatusError code) = none) ∧
    (WeatherEtl.get_weather_data FetchOutcome.jsonDecodeError = none) ∧
    (∀ payload : WeatherData,
       WeatherEtl.get_weather_data (FetchOutcome.success payload) = some payload) ∧
    (ForecastEtl.get_forecast_data FetchOutcome.networkError = none) ∧
    (∀ code : Nat, ForecastEtl.get_forecast_data (FetchOutcome.httpStatusError code) = none) ∧
    (ForecastEtl.get_forecast_data FetchOutcome.jsonDecodeError = none) ∧
    (∀ payload : ForecastData,
       ForecastEtl.get_forecast_data (FetchOutcome.success payload) = some payload) :=
  ⟨rfl, fun _ => rfl, rfl, fun _ => rfl, rfl, fun _ => rfl, rfl, fun _ => rfl⟩

/-- Claim C10: the two catalog loaders treat a missing top-level key
oppositely — with no `community_boards` key the NYC current-weather main
completes normally, iterating over zero points, reporting 0 successes and 0
errors and leaving the database untouched, while the forecast-variant
`load_coordinates` raises `KeyError` whenever the `neighborhoods` key is
missing. -/
theorem catalog_key_handling_divergence :
    (∀ (env : Int → Int → FetchOutcome WeatherData) (now : Nat) (cat : CatalogJson) (db0 : Db),
       cat.community_boards = none →
       WeatherEtl.mainRun env now cat db0 = (0, 0, db0)) ∧
    (∀ cat : CatalogJson, cat.neighborhoods = none →
       ForecastEtl.load_coordinates cat =
         Except.error (EtlError.keyError "coordinates.json must contain 'neighborhoods' key")) := by
  constructor
  · intro env now cat db0 h
    simp [WeatherEtl.mainRun, h, WeatherEtl.boardLoop]
  · intro cat h
    simp [ForecastEtl.load_coordinates, h]

theorem catalog_key_handling_divergence_witness :
    WeatherEtl.mainRun (fun _ _ => FetchOutcome.networkError) 0
        { community_boards := none, neighborhoods := none } emptyDb = (0, 0, emptyDb) ∧
    ForecastEtl.load_coordinates { community_boards := none, neighborhoods := none } =
      Except.error (EtlError.keyError "coordinates.json must contain 'neighborhoods' key") :=
  ⟨catalog_key_handling_divergence.1 (fun _ _ => FetchOutcome.networkError) 0
      { community_boards := none, neighborhoods := none } emptyDb rfl,
   catalog_key_handling_divergence.2 { community_boards := none, neighborhoods := none } rfl⟩

/-- Claim C3: for every coordinate pair, resolving the location twice with
different display names returns the same location identifier both times; the
stored display name (and, in the NYC variant, the community-board group
label) after the second call is the second call's; and each resolution
executes exactly one statement, the atomic insert-or-update — never a
separate exists-check followed by an insert. -/
theorem location_resolution_upsert (now1 now2 : Nat) (locs : LocTable)
    (name1 name2 : String) (lat lon : Int) (schema : String) (cb1 cb2 : Option String) :
    ((ForecastEtl.insert_or_update_location now2
        (ForecastEtl.insert_or_update_location now1 locs name1 lat lon schema).1
        name2 lat lon schema).2.1 =
      (ForecastEtl.insert_or_update_location now1 locs name1 lat lon schema).2.1 ∧
     (∀ r ∈ (ForecastEtl.insert_or_update_location now2
          (ForecastEtl.insert_or_update_location now1 locs name1 lat lon schema).1
          name2 lat lon schema).1.rows,
        r.latitude = lat → r.longitude = lon → r.neighborhood_name = name2) ∧
     (ForecastEtl.insert_or_update_location now1 locs name1 lat lon schema).2.2 =
       [Stmt.upsertLocation schema name1 lat lon none] ∧
     (ForecastEtl.insert_or_update_location now2
        (ForecastEtl.insert_or_update_location now1 locs name1 lat lon schema).1
        name2 lat lon schema).2.2 =
       [Stmt.upsertLocation schema name2 lat lon none]) ∧
    ((WeatherEtl.insert_or_update_location now2
        (WeatherEtl.insert_or_update_location now1 locs name1 lat lon cb1).1
        name2 lat lon cb2).2.1 =
      (WeatherEtl.insert_or_update_location now1 locs name1 lat lon cb1).2.1 ∧
     (∀ r ∈ (WeatherEtl.insert_or_update_location now2
          (WeatherEtl.insert_or_update_location now1 locs name1 lat lon cb1).1
          name2 lat lon cb2).1.rows,
        r.latitude = lat → r.longitude = lon →
        r.neighborhood_name = name2 ∧ r.community_board = cb2) ∧
     (WeatherEtl.insert_or_update_location now1 locs name1 lat lon cb1).2.2 =
       [Stmt.upsertLocation "weather" name1 lat lon cb1] ∧
     (WeatherEtl.insert_or_update_location now2
        (WeatherEtl.insert_or_update_location now1 locs name1 lat lon cb1).1
        name2 lat lon cb2).2.2 =
       [Stmt.upsertLocation "weather" name2 lat lon cb2]) := by
  constructor
  · obtain ⟨hfind1, _⟩ := ForecastEtl.iul_spec_forecast now1 locs name1 lat lon schema
    obtain ⟨r', hr', hid⟩ := Option.map_eq_some'.mp hfind1
    refine ⟨?_, ?_, ForecastEtl.iul_trace_forecast .., ForecastEtl.iul_trace_forecast ..⟩
    · rw [ForecastEtl.iul_found_forecast now2 _ name2 lat lon schema r' hr', hid]
    · intro r hr hla hlo
      obtain ⟨_, hnames⟩ :=
        ForecastEtl.iul_spec_forecast now2
          (ForecastEtl.insert_or_update_location now1 locs name1 lat lon schema).1
          name2 lat lon schema
      exact (hnames r hr hla hlo).1
  · obtain ⟨hfind1, _⟩ := WeatherEtl.iul_spec_weather now1 locs name1 lat lon cb1
    obtain ⟨r', hr', hid⟩ := Option.map_eq_some'.mp hfind1
    refine ⟨?_, ?_, WeatherEtl.iul_trace_weather .., WeatherEtl.iul_trace_weather ..⟩
    · rw [WeatherEtl.iul_found_weather now2 _ name2 lat lon cb2 r' hr', hid]
    · intro r hr hla hlo
      obtain ⟨_, hnames⟩ :=
        WeatherEtl.iul_spec_weather now2
          (WeatherEtl.insert_or_update_location now1 locs name1 lat lon cb1).1
          name2 lat lon cb2
      exact ⟨(hnames r hr hla hlo).1, (hnames r hr hla hlo).2.1⟩

/-- Claim C6: resolving a calendar date twice returns the same date identifier
(second resolution finds the row the first created and changes nothing), the
derived fields stored on creation are deterministic functions of the date —
weekday index always in 0–6, quarter = ((month−1)÷3)+1, weekend flag exactly
when the weekday is Saturday or Sunday — and concretely 2026-01-19 (a Monday)
is stored with weekday index 0, quarter 1, weekend flag false, while
2026-01-24 (a Saturday) is stored with weekday index 5 and weekend flag
true. -/
theorem date_resolution_deterministic :
    (∀ (dates : DateTable) (t : IsoDateTime) (schema : String),
       ∃ dates' id tr1 tr2,
         ForecastEtl.get_or_create_date dates t schema = Except.ok (dates', id, tr1) ∧
         ForecastEtl.get_or_create_date dates' t schema = Except.ok (dates', id, tr2)) ∧
    (∀ (i : Nat) (d : Date),
       (mkDateRow i d).day_of_week < 7 ∧
       (mkDateRow i d).day_of_week = pyWeekday d ∧
       (mkDateRow i d).quarter = (d.month - 1) / 3 + 1 ∧
       ((mkDateRow i d).is_weekend = true ↔ pyWeekday d ≥ 5)) ∧
    (ForecastEtl.get_or_create_date emptyDateTable ⟨⟨2026, 1, 19⟩, 0, 0, 0, none⟩ "pittsburgh" =
      Except.ok
        ({ rows := [{ dateId := 0, date := ⟨2026, 1, 19⟩, year := 2026, month := 1, day := 19,
                      day_of_week := 0, day_name := "Monday", week_of_year := 4, quarter := 1,
                      is_weekend := false }],
           nextId := 1 },
         0,
         [Stmt.selectDateId "pittsburgh" ⟨2026, 1, 19⟩,
          Stmt.insertDate "pittsburgh" ⟨2026, 1, 19⟩])) ∧
    ((mkDateRow 0 ⟨2026, 1, 24⟩).day_of_week = 5 ∧
     (mkDateRow 0 ⟨2026, 1, 24⟩).is_weekend = true) := by
  refine ⟨?_, ?_, by decide, by decide⟩
  · intro dates t schema
    obtain ⟨dates', id, tr, h1, _, _, hlook⟩ := ForecastEtl.gocd_spec dates t schema
    exact ⟨dates', id, tr, _, h1, ForecastEtl.gocd_found dates' t schema id hlook⟩
  · intro i d
    refine ⟨?_, rfl, rfl, ?_⟩
    · exact Nat.mod_lt _ (by omega)
    · simp [mkDateRow]

/-- Claim C8 counterexample: when the dim_date row is created between the
failed lookup and the insert (the interleaving writer commits the same date),
`get_or_create_date` propagates the unique-constraint violation instead of
falling back to the lookup and returning the existing identifier. -/
theorem date_insert_unique_violation_propagates :
    ForecastEtl.get_or_create_date_steps emptyDateTable
        (fun tbl => { rows := tbl.rows ++ [mkDateRow tbl.nextId ⟨2026, 1, 19⟩],
                      nextId := tbl.nextId + 1 })
        ⟨⟨2026, 1, 19⟩, 0, 0, 0, none⟩ "pittsburgh" =
      Except.error EtlError.uniqueViolation := by decide

/-- Claim C8 (amended): date resolution is lookup-then-insert with no
exception handling: whenever the date is absent at lookup time but present by
the time the INSERT executes, the unique-constraint violation propagates to
the caller (whose per-point handler rolls the transaction back); there is no
fallback re-lookup returning the existing row's identifier. -/
theorem date_resolution_race_amended (dates : DateTable) (between : DateTable → DateTable)
    (t : IsoDateTime) (schema : String)
    (h1 : dimDateLookup dates t.date = none)
    (h2 : (between dates).rows.any (fun r => decide (r.date = t.date)) = true) :
    ForecastEtl.get_or_create_date_steps dates between t schema =
      Except.error EtlError.uniqueViolation := by
  simp [ForecastEtl.get_or_create_date_steps, h1, sqlInsertDate, h2]

theorem date_resolution_race_amended_witness :
    ForecastEtl.get_or_create_date_steps emptyDateTable
        (fun tbl => { rows := tbl.rows ++ [mkDateRow tbl.nextId ⟨2026, 3, 5⟩],
                      nextId := tbl.nextId + 1 })
        ⟨⟨2026, 3, 5⟩, 6, 30, 0, none⟩ "weather" =
      Except.error EtlError.uniqueViolation :=
  date_resolution_race_amended emptyDateTable
    (fun tbl => { rows := tbl.rows ++ [mkDateRow tbl.nextId ⟨2026, 3, 5⟩],
                  nextId := tbl.nextId + 1 })
    ⟨⟨2026, 3, 5⟩, 6, 30, 0, none⟩ "weather" (by decide) (by decide)

theorem location_resolution_upsert_witness :
    (ForecastEtl.insert_or_update_location 7
        (ForecastEtl.insert_or_update_location 5 emptyLocTable "Old Name" 40 (-74) "pittsburgh").1
        "New Name" 40 (-74) "pittsburgh").2.1 =
      (ForecastEtl.insert_or_update_location 5 emptyLocTable "Old Name" 40 (-74) "pittsburgh").2.1 :=
  (location_resolution_upsert 5 7 emptyLocTable "Old Name" "New Name" 40 (-74) "pittsburgh"
      (some "Manhattan 8") (some "Manhattan 9")).1.1

/-- Projection helpers over the result of `insert_weather_observation`, used
to state concrete runs: the date ids of the written fact rows, and the
post-call state (unchanged on an exception, matching the caller's
rollback). -/
def currentDateIds (r : Except EtlError (DateTable × List CurrentRow × List Stmt)) : List Nat :=
  match r with
  | Except.ok (_, facts, _) => facts.map (fun q => q.dateId)
  | Except.error _ => []

def currentResultState (r : Except EtlError (DateTable × List CurrentRow × List Stmt))
    (dates0 : DateTable) (facts0 : List CurrentRow) : DateTable × List CurrentRow :=
  match r with
  | Except.ok (d, f, _) => (d, f)
  | Except.error _ => (dates0, facts0)

/-- Claim C4 counterexample: the write path accepts both timestamp forms but
does not normalize them to one timezone-aware representation — the bare local
timestamp `2026-01-19T21:00` parses to a naive value (`tzMinutes = none`) and
the offset-carrying `2026-01-20T02:00:00Z` to an aware one; under the
pipeline's `America/New_York` winter offset (−300 minutes) both denote the
same instant, yet writing them creates two different date-dimension rows (ids
0 and 1), because the date key is the literal clock date. -/
theorem same_instant_different_date_rows :
    parsePayloadTime "2026-01-19T21:00" = some ⟨⟨2026, 1, 19⟩, 21, 0, 0, none⟩ ∧
    parsePayloadTime "2026-01-20T02:00:00Z" = some ⟨⟨2026, 1, 20⟩, 2, 0, 0, some 0⟩ ∧
    instantSeconds (-300) ⟨⟨2026, 1, 19⟩, 21, 0, 0, none⟩ =
      instantSeconds (-300) ⟨⟨2026, 1, 20⟩, 2, 0, 0, some 0⟩ ∧
    (let r1 := WeatherEtl.insert_weather_observation emptyDateTable [] 7
        { current := some { time := some "2026-01-19T21:00", fields := [] } }
     let s1 := currentResultState r1 emptyDateTable []
     let r2 := WeatherEtl.insert_weather_observation s1.1 s1.2 7
        { current := some { time := some "2026-01-20T02:00:00Z", fields := [] } }
     currentDateIds r1 = [0] ∧ currentDateIds r2 = [0, 1]) := by decide

lemma WeatherEtl.gocd_eq_forecast (dates : DateTable) (t : IsoDateTime) :
    WeatherEtl.get_or_create_date dates t = ForecastEtl.get_or_create_date dates t "weather" := rfl

/-- Claim C4 (amended): the write path accepts both a bare local timestamp and
one carrying an explicit UTC offset (a trailing `Z` is first rewritten to
`+00:00`), but performs no timezone normalization: the parsed clock reading is
kept as is and its literal calendar date is the date-dimension key, so two
accepted timestamps resolve to the same date-dimension row exactly when their
literal calendar dates agree — in particular a bare timestamp and an
offset-carrying timestamp with the same clock reading share one row. -/
theorem timestamp_same_calendar_date_same_row (s1 s2 : String) (t1 t2 : IsoDateTime)
    (dates : DateTable)
    (h1 : parsePayloadTime s1 = some t1) (h2 : parsePayloadTime s2 = some t2)
    (hd : t1.date = t2.date) :
    ∃ dates' id tr1 tr2,
      WeatherEtl.get_or_create_date dates t1 = Except.ok (dates', id, tr1) ∧
      WeatherEtl.get_or_create_date dates' t2 = Except.ok (dates', id, tr2) := by
  obtain ⟨dates', id, tr, hok, _, _, hlook⟩ := ForecastEtl.gocd_spec dates t1 "weather"
  refine ⟨dates', id, tr, [Stmt.selectDateId "weather" t2.date], ?_, ?_⟩
  · rw [WeatherEtl.gocd_eq_forecast]
    exact hok
  · rw [WeatherEtl.gocd_eq_forecast]
    exact ForecastEtl.gocd_found dates' t2 "weather" id (hd ▸ hlook)

theorem timestamp_same_calendar_date_same_row_witness :
    ∃ dates' id tr1 tr2,
      WeatherEtl.get_or_create_date emptyDateTable ⟨⟨2026, 1, 19⟩, 21, 0, 0, none⟩ =
        Except.ok (dates', id, tr1) ∧
      WeatherEtl.get_or_create_date dates' ⟨⟨2026, 1, 19⟩, 21, 0, 0, some (-300)⟩ =
        Except.ok (dates', id, tr2) :=
  timestamp_same_calendar_date_same_row "2026-01-19T21:00" "2026-01-19T21:00:00-05:00"
    ⟨⟨2026, 1, 19⟩, 21, 0, 0, none⟩ ⟨⟨2026, 1, 19⟩, 21, 0, 0, some (-300)⟩
    emptyDateTable (by decide) (by decide) rfl

/-- Claim C7: a forecast payload whose per-field measurement arrays are
shorter than its time index array never causes an index error: the write
succeeds over every index of the time array (returning one written row per
hour), and `get_value` yields the explicit null for every index a field's
array does not reach. -/
theorem forecast_short_arrays_safe (dates : DateTable) (rows : List ForecastRow)
    (location_id : Nat) (fd : ForecastData) (schema : String) (hb : HourlyBlock)
    (hhb : fd.hourly = some hb) (hne : hb.time ≠ [])
    (hparse : ∀ s ∈ hb.time, (parsePayloadTime s).isSome) :
    (∃ dates' rows' tr,
      ForecastEtl.insert_forecast_observations dates rows location_id fd schema =
        Except.ok (dates', rows', hb.time.length, tr)) ∧
    (∀ (key : String) (i : Nat), (hourlyValues hb key).length ≤ i →
      ForecastEtl.get_value hb key i = none) := by
  constructor
  · obtain ⟨dates', rows', tr, h, _, _⟩ :=
      ForecastEtl.ifo_spec dates rows location_id fd schema hb hhb hne hparse
    exact ⟨dates', rows', tr, h⟩
  · intro key i hlen
    unfold ForecastEtl.get_value
    rw [dif_neg (by omega : ¬ i < (hourlyValues hb key).length)]

def hbShort : HourlyBlock :=
  { time := ["2026-01-19T00:00", "2026-01-19T01:00"],
    fields := [("temperature_2m", [some 20])] }

def fdShort : ForecastData := { hourly := some hbShort }

theorem forecast_short_arrays_safe_witness :
    (∃ dates' rows' tr,
      ForecastEtl.insert_forecast_observations emptyDateTable [] 3 fdShort "pittsburgh" =
        Except.ok (dates', rows', hbShort.time.length, tr)) ∧
    (∀ (key : String) (i : Nat), (hourlyValues hbShort key).length ≤ i →
      ForecastEtl.get_value hbShort key i = none) :=
  forecast_short_arrays_safe emptyDateTable [] 3 fdShort "pittsburgh" hbShort rfl
    (by decide) (by decide)

/-- Claim C5: evaluating the DAG's current-weather load on one observation
with the configured schema `pittsburgh` shows the write path is not scoped to
the configured schema: the only statement executed is the location upsert
against the hard-coded `weather` schema — with the schema string bound to the
`community_board` parameter — after which the four-positional-argument call to
the three-parameter `insert_weather_observation` raises `TypeError`, so the
observation fails (no dim_date or fact_current_weather statement runs), the
transaction is rolled back, and the summary reports 0 successes out of 1. -/
theorem dag_current_weather_schema_mismatch :
    Dag.load_current_weather 0 emptyDb
        [{ neighborhood_name := "Shadyside", latitude := 40, longitude := -79,
           weather_data := { current := some { time := some "2026-01-19T21:00",
                                               fields := [("temperature_2m", some 3)] } } }]
        "pittsburgh" =
      ({ total_observations := 1, successful_loads := 0, failed_loads := 1 },
       emptyDb,
       [Ev.stmt (Stmt.upsertLocation "weather" "Shadyside" 40 (-79) (some "pittsburgh")),
        Ev.rollback, Ev.commit]) := by decide

/-- Claim C1 counterexample: in the DAG forecast load task, a successful
observation's write is not durably committed independently of later failures.
With two observations, the first well-formed and the second failing its write,
the task counts 1 success and 1 failure, yet the committed forecast table is
empty afterwards — the per-loop `conn.rollback()` also discards the first
observation's uncommitted rows, which do survive when the failing observation
is absent. -/
theorem dag_write_failure_rolls_back_earlier_success :
    ((Dag.load_forecast_weather 0 emptyDb
        [{ neighborhood_name := "A", latitude := 1, longitude := 2,
           forecast_data := { hourly := some { time := ["2026-01-19T00:00"],
                                               fields := [("temperature_2m", [some 20])] } } },
         { neighborhood_name := "B", latitude := 3, longitude := 4,
           forecast_data := { hourly := none } }] "pittsburgh").1.successful_loads = 1 ∧
     (Dag.load_forecast_weather 0 emptyDb
        [{ neighborhood_name := "A", latitude := 1, longitude := 2,
           forecast_data := { hourly := some { time := ["2026-01-19T00:00"],
                                               fields := [("temperature_2m", [some 20])] } } },
         { neighborhood_name := "B", latitude := 3, longitude := 4,
           forecast_data := { hourly := none } }] "pittsburgh").1.failed_loads = 1 ∧
     (Dag.load_forecast_weather 0 emptyDb
        [{ neighborhood_name := "A", latitude := 1, longitude := 2,
           forecast_data := { hourly := some { time := ["2026-01-19T00:00"],
                                               fields := [("temperature_2m", [some 20])] } } },
         { neighborhood_name := "B", latitude := 3, longitude := 4,
           forecast_data := { hourly := none } }] "pittsburgh").2.1.forecasts = []) ∧
    (Dag.load_forecast_weather 0 emptyDb
        [{ neighborhood_name := "A", latitude := 1, longitude := 2,
           forecast_data := { hourly := some { time := ["2026-01-19T00:00"],
                                               fields := [("temperature_2m", [some 20])] } } }]
        "pittsburgh").2.1.forecasts ≠ [] := by decide

/-- The fetch-and-write outcome of one point of the standalone forecast
script, as a pure predicate of the environment and the point: the fetch
returns a payload whose hourly block has a non-empty time array whose entries
all parse.  `processNeighborhood` succeeds exactly on these points (the date
resolution itself never fails single-threaded). -/
def ForecastEtl.fcPointOk (env : Int → Int → FetchOutcome ForecastData)
    (nd : NeighborhoodEntry) : Bool :=
  match ForecastEtl.get_forecast_data (env nd.latitude nd.longitude) with
  | none => false
  | some fd =>
    match fd.hourly with
    | none => false
    | some hb =>
      match hb.time with
      | [] => false
      | _ :: _ => hb.time.all (fun s => (parsePayloadTime s).isSome)

/-- The per-hour loop raises when some hour's timestamp fails to parse. -/
lemma ForecastEtl.forecastHours_err (hourly : HourlyBlock) (location_id : Nat)
    (schema : String) :
    ∀ (ts : List String) (i : Nat) (dates : DateTable) (rows : List ForecastRow),
      (∃ s ∈ ts, parsePayloadTime s = none) →
      ∃ e, ForecastEtl.forecastHours hourly location_id schema i ts dates rows =
        Except.error e := by
  intro ts
  induction ts with
  | nil => intro i dates rows h; simp at h
  | cons s rest ih =>
      intro i dates rows h
      cases hp : parsePayloadTime s with
      | none => exact ⟨EtlError.parseFailure, by simp [ForecastEtl.forecastHours, hp]⟩
      | some t =>
          have hrest : ∃ x ∈ rest, parsePayloadTime x = none := by
            rcases h with ⟨x, hx, hxe⟩
            rcases List.mem_cons.mp hx with rfl | hxr
            · rw [hp] at hxe; exact absurd hxe (by simp)
            · exact ⟨x, hxr, hxe⟩
          obtain ⟨dates1, id1, tr1, hg, _, _, _⟩ := ForecastEtl.gocd_spec dates t schema
          obtain ⟨e, he⟩ := ih (i + 1) dates1
            (upsertForecastRow rows
              { locationId := location_id, dateId := id1, forecastTime := t,
                values := forecastFieldOrder.map (fun k => ForecastEtl.get_value hourly k i) })
            hrest
          exact ⟨e, by simp [ForecastEtl.forecastHours, hp, hg, he]⟩

/-- `insert_forecast_observations` raises on every payload that is not
well-formed (missing/empty hourly block, empty time array, or an unparseable
hour). -/
lemma ForecastEtl.ifo_err (dates : DateTable) (rows : List ForecastRow) (location_id : Nat)
    (fd : ForecastData) (schema : String)
    (hnwf : ¬ ∃ hb, fd.hourly = some hb ∧ hb.time ≠ [] ∧
        ∀ s ∈ hb.time, (parsePayloadTime s).isSome) :
    ∃ e, ForecastEtl.insert_forecast_observations dates rows location_id fd schema =
      Except.error e := by
  cases hhb : fd.hourly with
  | none =>
      exact ⟨EtlError.valueError "No hourly forecast data available",
             by simp [ForecastEtl.insert_forecast_observations, hhb]⟩
  | some hb =>
      by_cases hne : hb.time = []
      · exact ⟨EtlError.valueError "No time data in hourly forecast",
               by simp [ForecastEtl.insert_forecast_observations, hhb, hne]⟩
      · have hbad : ∃ s ∈ hb.time, parsePayloadTime s = none := by
          by_contra hall
          push_neg at hall
          refine hnwf ⟨hb, hhb, hne, fun s hs => ?_⟩
          cases hp : parsePayloadTime s with
          | none => exact absurd hp (hall s hs)
          | some t => rfl
        obtain ⟨e, he⟩ :=
          ForecastEtl.forecastHours_err hb location_id schema hb.time 0 dates rows hbad
        exact ⟨e, by simp [ForecastEtl.insert_forecast_observations, hhb, hne, he]⟩

/-- One forecast-script step's connection outcome depends only on the
incoming connection, not on the tallies. -/
lemma ForecastEtl.fcStep_conn_eq (env : Int → Int → FetchOutcome ForecastData)
    (now : Nat) (schema : String) (st1 st2 : EtlForecastState) (nd : NeighborhoodEntry)
    (h : st1.conn = st2.conn) :
    (ForecastEtl.processNeighborhood env now schema st1 nd).conn =
      (ForecastEtl.processNeighborhood env now schema st2 nd).conn := by
  unfold ForecastEtl.processNeighborhood
  dsimp only
  rw [h]
  cases hf : ForecastEtl.get_forecast_data (env nd.latitude nd.longitude) with
  | none => rfl
  | some fd =>
      dsimp only
      split <;> rfl

lemma ForecastEtl.fcLoop_conn_congr (env : Int → Int → FetchOutcome ForecastData)
    (now : Nat) (schema : String) :
    ∀ (l : List NeighborhoodEntry) (st1 st2 : EtlForecastState), st1.conn = st2.conn →
      (ForecastEtl.mainLoop env now schema l st1).conn =
        (ForecastEtl.mainLoop env now schema l st2).conn := by
  intro l
  induction l with
  | nil => intro st1 st2 h; exact h
  | cons nd rest ih =>
      intro st1 st2 h
      simp only [ForecastEtl.mainLoop]
      exact ih _ _ (ForecastEtl.fcStep_conn_eq env now schema st1 st2 nd h)

/-- Each forecast-script step keeps the connection in the committed = work
state: a fetch failure touches nothing, a write failure rolls back to the
committed state, a success commits. -/
lemma ForecastEtl.fcStep_diag (env : Int → Int → FetchOutcome ForecastData)
    (now : Nat) (schema : String) (st : EtlForecastState) (nd : NeighborhoodEntry) (c : Db)
    (hd : st.conn = Conn.mk c c) :
    ∃ c', (ForecastEtl.processNeighborhood env now schema st nd).conn = Conn.mk c' c' := by
  unfold ForecastEtl.processNeighborhood
  dsimp only
  cases hf : ForecastEtl.get_forecast_data (env nd.latitude nd.longitude) with
  | none => exact ⟨c, hd⟩
  | some fd =>
      dsimp only
      split
      · exact ⟨_, rfl⟩
      · exact ⟨st.conn.committed, rfl⟩

/-- A point that `fcPointOk` rejects is a database no-op: its step leaves the
connection exactly as it was (the failing point alone is rolled back). -/
lemma ForecastEtl.fcStep_fail (env : Int → Int → FetchOutcome ForecastData)
    (now : Nat) (schema : String) (st : EtlForecastState) (nd : NeighborhoodEntry) (c : Db)
    (hd : st.conn = Conn.mk c c)
    (hk : ForecastEtl.fcPointOk env nd = false) :
    (ForecastEtl.processNeighborhood env now schema st nd).conn = st.conn := by
  unfold ForecastEtl.processNeighborhood
  dsimp only
  cases hf : ForecastEtl.get_forecast_data (env nd.latitude nd.longitude) with
  | none => rfl
  | some fd =>
      dsimp only
      have hnwf : ¬ ∃ hb, fd.hourly = some hb ∧ hb.time ≠ [] ∧
          ∀ s ∈ hb.time, (parsePayloadTime s).isSome := by
        unfold ForecastEtl.fcPointOk at hk
        rw [hf] at hk
        dsimp only at hk
        rintro ⟨hb, hhb, hne, hall⟩
        rw [hhb] at hk
        dsimp only at hk
        cases ht : hb.time with
        | nil => exact hne ht
        | cons a rest =>
            rw [ht] at hk
            dsimp only at hk
            have hTrue : (a :: rest).all (fun s => (parsePayloadTime s).isSome) = true :=
              List.all_eq_true.mpr (fun x hx => hall x (ht.symm ▸ hx))
            rw [hk] at hTrue
            exact Bool.false_ne_true hTrue
      obtain ⟨e, he⟩ := ForecastEtl.ifo_err st.conn.work.dates st.conn.work.forecasts
        (ForecastEtl.insert_or_update_location now st.conn.work.locs nd.name nd.latitude
          nd.longitude schema).2.1 fd schema hnwf
      rw [he]
      dsimp only
      rw [hd]

/-- Dropping the failing points from a standalone-forecast batch does not
change the resulting connection: every successful point's writes are durably
committed, and no failure, wherever it sits in the batch, adds or removes
anything. -/
lemma ForecastEtl.fcLoop_filter (env : Int → Int → FetchOutcome ForecastData)
    (now : Nat) (schema : String) :
    ∀ (l : List NeighborhoodEntry) (st : EtlForecastState) (c : Db),
      st.conn = Conn.mk c c →
      (ForecastEtl.mainLoop env now schema l st).conn =
        (ForecastEtl.mainLoop env now schema (l.filter (ForecastEtl.fcPointOk env)) st).conn := by
  intro l
  induction l with
  | nil => intro st c hd; rfl
  | cons nd rest ih =>
      intro st c hd
      cases hk : ForecastEtl.fcPointOk env nd with
      | true =>
          rw [List.filter_cons_of_pos hk]
          simp only [ForecastEtl.mainLoop]
          obtain ⟨c', hdiag⟩ := ForecastEtl.fcStep_diag env now schema st nd c hd
          exact ih (ForecastEtl.processNeighborhood env now schema st nd) c' hdiag
      | false =>
          rw [List.filter_cons_of_neg (by simp [hk])]
          simp only [ForecastEtl.mainLoop]
          have hfail := ForecastEtl.fcStep_fail env now schema st nd c hd hk
          exact (ForecastEtl.fcLoop_conn_congr env now schema rest _ st hfail).trans
            (ih st c hd)

/-- The fetch-and-write outcome of one point of the NYC current-weather
script, as a pure predicate of the environment and the point: the fetch
returns a payload carrying a non-empty, parseable observation timestamp.
`WeatherEtl.processNeighborhood` succeeds exactly on these points. -/
def WeatherEtl.wxPointOk (env : Int → Int → FetchOutcome WeatherData)
    (nd : NeighborhoodEntry) : Bool :=
  match WeatherEtl.get_weather_data (env nd.latitude nd.longitude) with
  | none => false
  | some wd =>
    match wd.current.bind (fun c => c.time) with
    | none => false
    | some ts => decide (ts ≠ "") && (parsePayloadTime ts).isSome

/-- `insert_weather_observation` raises on every payload whose time field is
missing, empty, or unparseable. -/
lemma WeatherEtl.iwo_err (dates : DateTable) (facts : List CurrentRow) (location_id : Nat)
    (wd : WeatherData)
    (h : ∀ ts, wd.current.bind (fun c => c.time) = some ts →
           ts = "" ∨ parsePayloadTime ts = none) :
    ∃ e, WeatherEtl.insert_weather_observation dates facts location_id wd =
      Except.error e := by
  cases hts : wd.current.bind (fun c => c.time) with
  | none =>
      exact ⟨EtlError.valueError "No time field in weather data",
             by simp [WeatherEtl.insert_weather_observation, hts]⟩
  | some ts =>
      by_cases he : ts = ""
      · exact ⟨EtlError.valueError "No time field in weather data",
               by simp [WeatherEtl.insert_weather_observation, hts, he]⟩
      · rcases h ts hts with he' | hp
        · exact absurd he' he
        · exact ⟨EtlError.parseFailure,
                 by simp [WeatherEtl.insert_weather_observation, hts, he, hp]⟩

/-- One NYC current-weather step's connection outcome depends only on the
incoming connection, not on the tallies. -/
lemma WeatherEtl.wxStep_conn_eq (env : Int → Int → FetchOutcome WeatherData)
    (now : Nat) (cb : CommunityBoard) (st1 st2 : WeatherLoopState) (nd : NeighborhoodEntry)
    (h : st1.conn = st2.conn) :
    (WeatherEtl.processNeighborhood env now cb st1 nd).conn =
      (WeatherEtl.processNeighborhood env now cb st2 nd).conn := by
  unfold WeatherEtl.processNeighborhood
  dsimp only
  rw [h]
  cases hf : WeatherEtl.get_weather_data (env nd.latitude nd.longitude) with
  | none => rfl
  | some wd =>
      dsimp only
      split <;> rfl

lemma WeatherEtl.nbLoop_conn_congr (env : Int → Int → FetchOutcome WeatherData)
    (now : Nat) (cb : CommunityBoard) :
    ∀ (nds : List NeighborhoodEntry) (st1 st2 : WeatherLoopState), st1.conn = st2.conn →
      (WeatherEtl.neighborhoodLoop env now cb nds st1).conn =
        (WeatherEtl.neighborhoodLoop env now cb nds st2).conn := by
  intro nds
  induction nds with
  | nil => intro st1 st2 h; exact h
  | cons nd rest ih =>
      intro st1 st2 h
      simp only [WeatherEtl.neighborhoodLoop]
      exact ih _ _ (WeatherEtl.wxStep_conn_eq env now cb st1 st2 nd h)

/-- Each NYC current-weather step keeps the connection in the committed =
work state. -/
lemma WeatherEtl.wxStep_diag (env : Int → Int → FetchOutcome WeatherData)
    (now : Nat) (cb : CommunityBoard) (st : WeatherLoopState) (nd : NeighborhoodEntry) (c : Db)
    (hd : st.conn = Conn.mk c c) :
    ∃ c', (WeatherEtl.processNeighborhood env now cb st nd).conn = Conn.mk c' c' := by
  unfold WeatherEtl.processNeighborhood
  dsimp only
  cases hf : WeatherEtl.get_weather_data (env nd.latitude nd.longitude) with
  | none => exact ⟨c, hd⟩
  | some wd =>
      dsimp only
      split
      · exact ⟨_, rfl⟩
      · exact ⟨st.conn.committed, rfl⟩

lemma WeatherEtl.nbLoop_diag (env : Int → Int → FetchOutcome WeatherData)
    (now : Nat) (cb : CommunityBoard) :
    ∀ (nds : List NeighborhoodEntry) (st : WeatherLoopState) (c : Db),
      st.conn = Conn.mk c c →
      ∃ c', (WeatherEtl.neighborhoodLoop env now cb nds st).conn = Conn.mk c' c' := by
  intro nds
  induction nds with
  | nil => intro st c hd; exact ⟨c, hd⟩
  | cons nd rest ih =>
      intro st c hd
      obtain ⟨c', hdiag⟩ := WeatherEtl.wxStep_diag env now cb st nd c hd
      simp only [WeatherEtl.neighborhoodLoop]
      exact ih _ c' hdiag

/-- A point that `wxPointOk` rejects is a database no-op: its step leaves the
connection exactly as it was. -/
lemma WeatherEtl.wxStep_fail (env : Int → Int → FetchOutcome WeatherData)
    (now : Nat) (cb : CommunityBoard) (st : WeatherLoopState) (nd : NeighborhoodEntry) (c : Db)
    (hd : st.conn = Conn.mk c c)
    (hk : WeatherEtl.wxPointOk env nd = false) :
    (WeatherEtl.processNeighborhood env now cb st nd).conn = st.conn := by
  unfold WeatherEtl.processNeighborhood
  dsimp only
  cases hf : WeatherEtl.get_weather_data (env nd.latitude nd.longitude) with
  | none => rfl
  | some wd =>
      dsimp only
      have hbad : ∀ ts, wd.current.bind (fun c => c.time) = some ts →
          ts = "" ∨ parsePayloadTime ts = none := by
        unfold WeatherEtl.wxPointOk at hk
        rw [hf] at hk
        dsimp only at hk
        intro ts hts
        rw [hts] at hk
        dsimp only at hk
        by_cases he : ts = ""
        · exact Or.inl he
        · right
          cases hp : parsePayloadTime ts with
          | none => rfl
          | some t =>
              rw [hp] at hk
              simp [he] at hk
      obtain ⟨e, he⟩ := WeatherEtl.iwo_err st.conn.work.dates st.conn.work.facts
        (WeatherEtl.insert_or_update_location now st.conn.work.locs
          (cb.borough.getD "None" ++ " - " ++ nd.name) nd.latitude nd.longitude
          (some (cb.borough.getD "None" ++ " " ++ cb.board.getD "None"))).2.1
        wd hbad
      rw [he]
      dsimp only
      rw [hd]

/-- Dropping the failing points from one community board's list does not
change the resulting connection. -/
lemma WeatherEtl.nbLoop_filter (env : Int → Int → FetchOutcome WeatherData)
    (now : Nat) (cb : CommunityBoard) :
    ∀ (nds : List NeighborhoodEntry) (st : WeatherLoopState) (c : Db),
      st.conn = Conn.mk c c →
      (WeatherEtl.neighborhoodLoop env now cb nds st).conn =
        (WeatherEtl.neighborhoodLoop env now cb
          (nds.filter (WeatherEtl.wxPointOk env)) st).conn := by
  intro nds
  induction nds with
  | nil => intro st c hd; rfl
  | cons nd rest ih =>
      intro st c hd
      cases hk : WeatherEtl.wxPointOk env nd with
      | true =>
          rw [List.filter_cons_of_pos hk]
          simp only [WeatherEtl.neighborhoodLoop]
          obtain ⟨c', hdiag⟩ := WeatherEtl.wxStep_diag env now cb st nd c hd
          exact ih (WeatherEtl.processNeighborhood env now cb st nd) c' hdiag
      | false =>
          rw [List.filter_cons_of_neg (by simp [hk])]
          simp only [WeatherEtl.neighborhoodLoop]
          have hfail := WeatherEtl.wxStep_fail env now cb st nd c hd hk
          exact (WeatherEtl.nbLoop_conn_congr env now cb rest _ st hfail).trans (ih st c hd)

/-- A community board with its failing points dropped. -/
def WeatherEtl.filterBoard (env : Int → Int → FetchOutcome WeatherData)
    (cb : CommunityBoard) : CommunityBoard :=
  { cb with
      neighborhoods := some ((cb.neighborhoods.getD []).filter (WeatherEtl.wxPointOk env)) }

/-- The step reads only `borough` and `board` from the community board, which
`filterBoard` preserves. -/
lemma WeatherEtl.wxStep_filterBoard (env : Int → Int → FetchOutcome WeatherData)
    (now : Nat) (cb : CommunityBoard) (st : WeatherLoopState) (nd : NeighborhoodEntry) :
    WeatherEtl.processNeighborhood env now (WeatherEtl.filterBoard env cb) st nd =
      WeatherEtl.processNeighborhood env now cb st nd := rfl

lemma WeatherEtl.nbLoop_filterBoard (env : Int → Int → FetchOutcome WeatherData)
    (now : Nat) (cb : CommunityBoard) :
    ∀ (nds : List NeighborhoodEntry) (st : WeatherLoopState),
      WeatherEtl.neighborhoodLoop env now (WeatherEtl.filterBoard env cb) nds st =
        WeatherEtl.neighborhoodLoop env now cb nds st := by
  intro nds
  induction nds with
  | nil => intro st; rfl
  | cons nd rest ih =>
      intro st
      simp only [WeatherEtl.neighborhoodLoop, WeatherEtl.wxStep_filterBoard, ih]

lemma WeatherEtl.boardLoop_conn_congr (env : Int → Int → FetchOutcome WeatherData)
    (now : Nat) :
    ∀ (l : List CommunityBoard) (st1 st2 : WeatherLoopState), st1.conn = st2.conn →
      (WeatherEtl.boardLoop env now l st1).conn = (WeatherEtl.boardLoop env now l st2).conn := by
  intro l
  induction l with
  | nil => intro st1 st2 h; exact h
  | cons cb rest ih =>
      intro st1 st2 h
      simp only [WeatherEtl.boardLoop]
      exact ih _ _ (WeatherEtl.nbLoop_conn_congr env now cb (cb.neighborhoods.getD []) st1 st2 h)

/-- Dropping the failing points from every board of an NYC current-weather
batch does not change the resulting connection: every successful point's
writes are durably committed and no failure adds or removes anything. -/
lemma WeatherEtl.boardLoop_filter (env : Int → Int → FetchOutcome WeatherData) (now : Nat) :
    ∀ (l : List CommunityBoard) (st : WeatherLoopState) (c : Db),
      st.conn = Conn.mk c c →
      (WeatherEtl.boardLoop env now l st).conn =
        (WeatherEtl.boardLoop env now (l.map (WeatherEtl.filterBoard env)) st).conn := by
  intro l
  induction l with
  | nil => intro st c hd; rfl
  | cons cb rest ih =>
      intro st c hd
      simp only [List.map_cons, WeatherEtl.boardLoop]
      rw [show (WeatherEtl.filterBoard env cb).neighborhoods.getD [] =
            (cb.neighborhoods.getD []).filter (WeatherEtl.wxPointOk env) from rfl]
      rw [WeatherEtl.nbLoop_filterBoard]
      have hfilt := WeatherEtl.nbLoop_filter env now cb (cb.neighborhoods.getD []) st c hd
      obtain ⟨c', hdiag⟩ := WeatherEtl.nbLoop_diag env now cb
        ((cb.neighborhoods.getD []).filter (WeatherEtl.wxPointOk env)) st c hd
      exact (WeatherEtl.boardLoop_conn_congr env now rest _ _ hfilt).trans (ih _ c' hdiag)

/-- One NYC current-weather step tallies exactly one of success/failure. -/
lemma WeatherEtl.wxStep_counts (env : Int → Int → FetchOutcome WeatherData)
    (now : Nat) (cb : CommunityBoard) (st : WeatherLoopState) (nd : NeighborhoodEntry) :
    (WeatherEtl.processNeighborhood env now cb st nd).success_count +
        (WeatherEtl.processNeighborhood env now cb st nd).error_count =
      st.success_count + st.error_count + 1 := by
  unfold WeatherEtl.processNeighborhood
  dsimp only
  split
  · dsimp only; omega
  · split
    · dsimp only; omega
    · dsimp only; omega

lemma WeatherEtl.nbLoop_counts (env : Int → Int → FetchOutcome WeatherData)
    (now : Nat) (cb : CommunityBoard) :
    ∀ (nds : List NeighborhoodEntry) (st : WeatherLoopState),
      (WeatherEtl.neighborhoodLoop env now cb nds st).success_count +
          (WeatherEtl.neighborhoodLoop env now cb nds st).error_count =
        st.success_count + st.error_count + nds.length := by
  intro nds
  induction nds with
  | nil => intro st; simp [WeatherEtl.neighborhoodLoop]
  | cons nd rest ih =>
      intro st
      have hstep := WeatherEtl.wxStep_counts env now cb st nd
      have hrest := ih (WeatherEtl.processNeighborhood env now cb st nd)
      simp only [WeatherEtl.neighborhoodLoop, List.length_cons]
      omega

/-- Total number of points of an NYC catalog batch, across all boards. -/
def WeatherEtl.boardPoints : List CommunityBoard → Nat
  | [] => 0
  | cb :: rest => (cb.neighborhoods.getD []).length + WeatherEtl.boardPoints rest

lemma WeatherEtl.boardLoop_counts (env : Int → Int → FetchOutcome WeatherData) (now : Nat) :
    ∀ (l : List CommunityBoard) (st : WeatherLoopState),
      (WeatherEtl.boardLoop env now l st).success_count +
          (WeatherEtl.boardLoop env now l st).error_count =
        st.success_count + st.error_count + WeatherEtl.boardPoints l := by
  intro l
  induction l with
  | nil => intro st; simp [WeatherEtl.boardLoop, WeatherEtl.boardPoints]
  | cons cb rest ih =>
      intro st
      have hnb := WeatherEtl.nbLoop_counts env now cb (cb.neighborhoods.getD []) st
      have hrest := ih (WeatherEtl.neighborhoodLoop env now cb (cb.neighborhoods.getD []) st)
      simp only [WeatherEtl.boardLoop, WeatherEtl.boardPoints]
      omega

/-- One DAG current-weather loop step tallies exactly one of
success/failure. -/
lemma Dag.currentObsStep_counts (now : Nat) (schema : String)
    (st : DagCurrentState) (obs : WeatherObs) :
    (Dag.currentObsStep now schema st obs).success_count +
        (Dag.currentObsStep now schema st obs).error_count =
      st.success_count + st.error_count + 1 := by
  unfold Dag.currentObsStep
  dsimp only
  split
  · dsimp only; omega
  · dsimp only; omega

lemma Dag.currentLoop_counts (now : Nat) (schema : String) :
    ∀ (l : List WeatherObs) (st : DagCurrentState),
      (Dag.currentLoop now schema l st).success_count +
          (Dag.currentLoop now schema l st).error_count =
        st.success_count + st.error_count + l.length := by
  intro l
  induction l with
  | nil => intro st; simp [Dag.currentLoop]
  | cons obs rest ih =>
      intro st
      have hstep := Dag.currentObsStep_counts now schema st obs
      have hrest := ih (Dag.currentObsStep now schema st obs)
      simp only [Dag.currentLoop, List.length_cons]
      omega

/-- Claim C1 (amended): no point's fetch or write failure aborts a batch — in
both standalone ETL scripts and in both DAG load tasks every point of the
batch is tallied exactly once as success or failure.  In the standalone
scripts, which commit after each successful point and roll back only the
failing point's transaction, every successful point's writes are durably
committed independently of the other points' failures: for every batch, the
final committed database equals the one produced by the successful points
alone, so no failure, wherever it occurs, adds or removes anything; in
particular, for 3 points where fetch succeeds for 2 and fails for 1, the loop
reports successful = 2, errors = 1 (total 3) and both successful points' rows
are in the committed table, and a point whose write raises is rolled back
alone, earlier points' committed rows surviving.  (In the DAG load tasks, by
contrast, commits happen only after the whole loop, so earlier uncommitted
successes are lost to a later failure's rollback — see the
counterexample.) -/
theorem batch_failure_isolation_amended :
    (∀ (env : Int → Int → FetchOutcome ForecastData) (now : Nat) (schema : String)
       (l : List NeighborhoodEntry) (st : EtlForecastState),
       (ForecastEtl.mainLoop env now schema l st).success_count +
         (ForecastEtl.mainLoop env now schema l st).error_count =
         st.success_count + st.error_count + l.length) ∧
    (∀ (env : Int → Int → FetchOutcome WeatherData) (now : Nat)
       (l : List CommunityBoard) (st : WeatherLoopState),
       (WeatherEtl.boardLoop env now l st).success_count +
         (WeatherEtl.boardLoop env now l st).error_count =
         st.success_count + st.error_count + WeatherEtl.boardPoints l) ∧
    (∀ (now : Nat) (db0 : Db) (l : List ForecastObs) (schema : String),
       (Dag.load_forecast_weather now db0 l schema).1.total_neighborhoods = l.length ∧
       (Dag.load_forecast_weather now db0 l schema).1.successful_loads +
         (Dag.load_forecast_weather now db0 l schema).1.failed_loads = l.length) ∧
    (∀ (now : Nat) (db0 : Db) (l : List WeatherObs) (schema : String),
       (Dag.load_current_weather now db0 l schema).1.total_observations = l.length ∧
       (Dag.load_current_weather now db0 l schema).1.successful_loads +
         (Dag.load_current_weather now db0 l schema).1.failed_loads = l.length) ∧
    (∀ (env : Int → Int → FetchOutcome ForecastData) (now : Nat) (schema : String)
       (l : List NeighborhoodEntry) (db0 : Db),
       (ForecastEtl.mainLoop env now schema l ⟨⟨db0, db0⟩, 0, 0, 0⟩).conn.committed =
         (ForecastEtl.mainLoop env now schema (l.filter (ForecastEtl.fcPointOk env))
           ⟨⟨db0, db0⟩, 0, 0, 0⟩).conn.committed) ∧
    (∀ (env : Int → Int → FetchOutcome WeatherData) (now : Nat)
       (l : List CommunityBoard) (db0 : Db),
       (WeatherEtl.boardLoop env now l ⟨⟨db0, db0⟩, 0, 0⟩).conn.committed =
         (WeatherEtl.boardLoop env now (l.map (WeatherEtl.filterBoard env))
           ⟨⟨db0, db0⟩, 0, 0⟩).conn.committed) ∧
    ((ForecastEtl.mainLoop
        (fun la _ => if la = 30 then FetchOutcome.networkError
          else FetchOutcome.success { hourly := some { time := ["2026-01-19T00:00"],
                                                       fields := [("temperature_2m", [some 20])] } })
        0 "pittsburgh"
        [⟨"P1", 10, 0⟩, ⟨"P2", 20, 0⟩, ⟨"P3", 30, 0⟩]
        ⟨⟨emptyDb, emptyDb⟩, 0, 0, 0⟩).success_count = 2 ∧
     (ForecastEtl.mainLoop
        (fun la _ => if la = 30 then FetchOutcome.networkError
          else FetchOutcome.success { hourly := some { time := ["2026-01-19T00:00"],
                                                       fields := [("temperature_2m", [some 20])] } })
        0 "pittsburgh"
        [⟨"P1", 10, 0⟩, ⟨"P2", 20, 0⟩, ⟨"P3", 30, 0⟩]
        ⟨⟨emptyDb, emptyDb⟩, 0, 0, 0⟩).error_count = 1 ∧
     ((ForecastEtl.mainLoop
        (fun la _ => if la = 30 then FetchOutcome.networkError
          else FetchOutcome.success { hourly := some { time := ["2026-01-19T00:00"],
                                                       fields := [("temperature_2m", [some 20])] } })
        0 "pittsburgh"
        [⟨"P1", 10, 0⟩, ⟨"P2", 20, 0⟩, ⟨"P3", 30, 0⟩]
        ⟨⟨emptyDb, emptyDb⟩, 0, 0, 0⟩).conn.committed.forecasts.map
          (fun r => r.locationId)) = [0, 1]) ∧
    ((ForecastEtl.mainLoop
        (fun la _ => if la = 50 then FetchOutcome.success { hourly := none }
          else FetchOutcome.success { hourly := some { time := ["2026-01-19T00:00"],
                                                       fields := [("temperature_2m", [some 20])] } })
        0 "pittsburgh"
        [⟨"Q1", 11, 0⟩, ⟨"Q2", 50, 0⟩]
        ⟨⟨emptyDb, emptyDb⟩, 0, 0, 0⟩).success_count = 1 ∧
     (ForecastEtl.mainLoop
        (fun la _ => if la = 50 then FetchOutcome.success { hourly := none }
          else FetchOutcome.success { hourly := some { time := ["2026-01-19T00:00"],
                                                       fields := [("temperature_2m", [some 20])] } })
        0 "pittsburgh"
        [⟨"Q1", 11, 0⟩, ⟨"Q2", 50, 0⟩]
        ⟨⟨emptyDb, emptyDb⟩, 0, 0, 0⟩).error_count = 1 ∧
     ((ForecastEtl.mainLoop
        (fun la _ => if la = 50 then FetchOutcome.success { hourly := none }
          else FetchOutcome.success { hourly := some { time := ["2026-01-19T00:00"],
                                                       fields := [("temperature_2m", [some 20])] } })
        0 "pittsburgh"
        [⟨"Q1", 11, 0⟩, ⟨"Q2", 50, 0⟩]
        ⟨⟨emptyDb, emptyDb⟩, 0, 0, 0⟩).conn.committed.forecasts.map
          (fun r => r.locationId)) = [0]) := by
  refine ⟨?_, ?_, ?_, ?_, ?_, ?_, by decide, by decide⟩
  · intro env now schema l st
    exact ForecastEtl.mainLoop_counts env now schema l st
  · intro env now l st
    exact WeatherEtl.boardLoop_counts env now l st
  · intro now db0 l schema
    obtain ⟨_, hn⟩ := Dag.forecastLoop_counts now schema l
        ⟨⟨{ locs := db0.locs, dates := db0.dates, facts := db0.facts, forecasts := [] },
          { locs := db0.locs, dates := db0.dates, facts := db0.facts, forecasts := [] }⟩, 0, 0, 0,
          [Ev.stmt (Stmt.countForecast schema), Ev.stmt (Stmt.truncateForecast schema), Ev.commit]⟩
    exact ⟨rfl, by simpa [Dag.load_forecast_weather] using hn⟩
  · intro now db0 l schema
    have hn := Dag.currentLoop_counts now schema l ⟨⟨db0, db0⟩, 0, 0, []⟩
    exact ⟨rfl, by simpa [Dag.load_current_weather] using hn⟩
  · intro env now schema l db0
    exact congrArg Conn.committed
      (ForecastEtl.fcLoop_filter env now schema l ⟨⟨db0, db0⟩, 0, 0, 0⟩ db0 rfl)
  · intro env now l db0
    exact congrArg Conn.committed
      (WeatherEtl.boardLoop_filter env now l ⟨⟨db0, db0⟩, 0, 0⟩ db0 rfl)

/-- Claim C2: in a DAG forecast load run whose observations are all
well-formed, the forecast fact table is cleared exactly once — the trace
starts with the COUNT, the TRUNCATE, and the commit of the clear, before any
forecast write of the run, and contains no further truncate — and the final
committed forecast table is exactly the run's forecast-insert statements
folded over the empty table, for any number N ≥ 0 of per-location writes: no
row of any prior run survives. -/
theorem forecast_replacement_run_semantics (now : Nat) (db0 : Db)
    (l : List ForecastObs) (schema : String)
    (hwf : ∀ o ∈ l, ForecastObsWF o) :
    (Dag.load_forecast_weather now db0 l schema).2.1.forecasts =
      applyRows (evForecastInserts (Dag.load_forecast_weather now db0 l schema).2.2) [] ∧
    (Dag.load_forecast_weather now db0 l schema).2.2.take 3 =
      [Ev.stmt (Stmt.countForecast schema), Ev.stmt (Stmt.truncateForecast schema), Ev.commit] ∧
    evTruncCount (Dag.load_forecast_weather now db0 l schema).2.2 = 1 ∧
    (Dag.load_forecast_weather now db0 l schema).1.rows_cleared = db0.forecasts.length := by
  obtain ⟨trNew, hTr, hTrunc, hFc⟩ := Dag.forecastLoop_wf now schema l
      ⟨⟨{ locs := db0.locs, dates := db0.dates, facts := db0.facts, forecasts := [] },
        { locs := db0.locs, dates := db0.dates, facts := db0.facts, forecasts := [] }⟩, 0, 0, 0,
        [Ev.stmt (Stmt.countForecast schema), Ev.stmt (Stmt.truncateForecast schema), Ev.commit]⟩
      hwf
  unfold Dag.load_forecast_weather
  dsimp only
  refine ⟨?_, ?_, ?_, rfl⟩
  · rw [hFc, hTr]
    rw [evForecastInserts_append, evForecastInserts_append]
    simp [evForecastInserts, forecastInsertOfEv, forecastInsertOfStmt, applyRows]
  · rw [hTr]
    simp [List.take]
  · rw [hTr]
    rw [evTruncCount_append, evTruncCount_append, hTrunc]
    simp [evTruncCount, isTruncEv, isTruncStmt]

theorem forecast_replacement_run_semantics_witness :
    (Dag.load_forecast_weather 3
        { locs := emptyLocTable, dates := emptyDateTable, facts := [],
          forecasts := [{ locationId := 99, dateId := 99,
                          forecastTime := ⟨⟨2020, 1, 1⟩, 0, 0, 0, none⟩, values := [] }] }
        [{ neighborhood_name := "W", latitude := 5, longitude := 6,
           forecast_data := { hourly := some { time := ["2026-01-19T05:00"], fields := [] } } }]
        "pittsburgh").2.1.forecasts =
      applyRows (evForecastInserts
        (Dag.load_forecast_weather 3
          { locs := emptyLocTable, dates := emptyDateTable, facts := [],
            forecasts := [{ locationId := 99, dateId := 99,
                            forecastTime := ⟨⟨2020, 1, 1⟩, 0, 0, 0, none⟩, values := [] }] }
          [{ neighborhood_name := "W", latitude := 5, longitude := 6,
             forecast_data := { hourly := some { time := ["2026-01-19T05:00"], fields := [] } } }]
          "pittsburgh").2.2) [] ∧
    (Dag.load_forecast_weather 3
        { locs := emptyLocTable, dates := emptyDateTable, facts := [],
          forecasts := [{ locationId := 99, dateId := 99,
                          forecastTime := ⟨⟨2020, 1, 1⟩, 0, 0, 0, none⟩, values := [] }] }
        [{ neighborhood_name := "W", latitude := 5, longitude := 6,
           forecast_data := { hourly := some { time := ["2026-01-19T05:00"], fields := [] } } }]
        "pittsburgh").2.2.take 3 =
      [Ev.stmt (Stmt.countForecast "pittsburgh"), Ev.stmt (Stmt.truncateForecast "pittsburgh"),
       Ev.commit] ∧
    evTruncCount (Dag.load_forecast_weather 3
        { locs := emptyLocTable, dates := emptyDateTable, facts := [],
          forecasts := [{ locationId := 99, dateId := 99,
                          forecastTime := ⟨⟨2020, 1, 1⟩, 0, 0, 0, none⟩, values := [] }] }
        [{ neighborhood_name := "W", latitude := 5, longitude := 6,
           forecast_data := { hourly := some { time := ["2026-01-19T05:00"], fields := [] } } }]
        "pittsburgh").2.2 = 1 ∧
    (Dag.load_forecast_weather 3
        { locs := emptyLocTable, dates := emptyDateTable, facts := [],
          forecasts := [{ locationId := 99, dateId := 99,
                          forecastTime := ⟨⟨2020, 1, 1⟩, 0, 0, 0, none⟩, values := [] }] }
        [{ neighborhood_name := "W", latitude := 5, longitude := 6,
           forecast_data := { hourly := some { time := ["2026-01-19T05:00"], fields := [] } } }]
        "pittsburgh").1.rows_cleared =
      ({ locs := emptyLocTable, dates := emptyDateTable, facts := [],
         forecasts := [{ locationId := 99, dateId := 99,
                         forecastTime := ⟨⟨2020, 1, 1⟩, 0, 0, 0, none⟩, values := [] }] } :
        Db).forecasts.length :=
  forecast_replacement_run_semantics 3
    { locs := emptyLocTable, dates := emptyDateTable, facts := [],
      forecasts := [{ locationId := 99, dateId := 99,
                      forecastTime := ⟨⟨2020, 1, 1⟩, 0, 0, 0, none⟩, values := [] }] }
    [{ neighborhood_name := "W", latitude := 5, longitude := 6,
       forecast_data := { hourly := some { time := ["2026-01-19T05:00"], fields := [] } } }]
    "pittsburgh"
    (by
      intro o ho
      simp only [List.mem_singleton] at ho
      subst ho
      exact ⟨{ time := ["2026-01-19T05:00"], fields := [] }, rfl, by decide, by decide⟩)
